import Mathlib

/-!
# BlueprintHttp: the request lifecycle wrappers

A shallow embedding of the BlueprintHttp plugin (`HttpRequest.h/.cpp`,
`HttpResponse.cpp`, `HttpResponseCode.h`, `BlueprintHttpLibrary.cpp`,
`BlueprintHttpNodes.cpp/.h`).

Conventions of the embedding.

* `FString` is `String`; `int32` is `Int` (no arithmetic is done on it here
  except inside `GetPercents`); `TArray<uint8>` is `List UInt8`.
* A C++ pointer `T*` is `Option T`, `none` being `nullptr`.  Calling a member
  function through a null pointer is a fault: functions that dereference a
  pointer return `Except Fault _`.
* `float` values are the rationals they denote and float arithmetic is exact
  (only `GetPercents` computes with them).
* A multicast delegate broadcast is recorded as one entry of the list of
  events a handler returns, in program order.
* `TMap<FString, FString>` is the list of its pairs in iteration order.
* A multicast delegate of `UHttpRequest` is the list of the member functions
  bound to it by `AddDynamic`.
* The reflection data of an enumeration (`UEnum`) is the list of its
  enumerators in declaration order, with the values the C++ numbering rule
  gives them and the meta data that `UMETA` declares.
* `UE_LOG` output is not an observer event and is left out.
* Functions of the engine that the plugin calls (`FString::Split`,
  `FCString::Atoi`, `FPlatformHttp::UrlEncode`, the setters and getters of
  `IHttpRequest`) are modelled after their documented behaviour; the file
  system (`FFileHelper::SaveArrayToFile`) and the transport
  (`IHttpRequest::ProcessRequest`) are oracles passed as arguments.
-/

namespace BlueprintHttp

/-! ## Engine primitives used by the plugin -/

/-- Faults of the embedded program. -/
inductive Fault where
  | NullDereference
  deriving DecidableEq, Repr

/-- Map type of the engine, as the sequence of its pairs in iteration order. -/
abbrev TMap (K V : Type) := List (K × V)

/-- Case-insensitive comparison of two strings (`FString::Equals` with
`ESearchCase::IgnoreCase`, also `FString::operator==`): ASCII letters are
compared without regard to case. -/
def FString.EqualsIgnoreCase (A B : String) : Bool :=
  A.toList.map Char.toLower == B.toList.map Char.toLower

/-- `TMap::Emplace`: the value of an existing key is replaced, a new key is
added at the end.  Keys are `FString`s, compared without regard to case. -/
def TMap.Emplace : TMap String String → String → String → TMap String String
  | [], Key, Value => [(Key, Value)]
  | (K, V) :: Rest, Key, Value =>
      if FString.EqualsIgnoreCase K Key then (Key, Value) :: Rest
      else (K, V) :: TMap.Emplace Rest Key Value

/-- `FString::Find` (case sensitive, from the start): index of the first
occurrence of `Sub` in `S`. -/
def FString.Find : List Char → List Char → Option Nat
  | [], Sub => if Sub.isEmpty then some 0 else none
  | C :: Cs, Sub =>
      if Sub.isPrefixOf (C :: Cs) then some 0
      else (FString.Find Cs Sub).map (· + 1)

/-- `FString::Split(InS, LeftS, RightS, ESearchCase::CaseSensitive)`.
`LeftS` and `RightS` are out-pointers of type `FString*`, passed by value: when
`InS` occurs in the string, the text before its first occurrence is written
through `LeftS` and the text after it through `RightS`, each only when the
pointer is not null.  The result is the returned flag and the two pointers as
the caller sees them after the call (a null pointer is still null). -/
def FString.Split (Self InS : String) (LeftS RightS : Option String) :
    Bool × Option String × Option String :=
  match FString.Find Self.toList InS.toList with
  | none => (false, LeftS, RightS)
  | some InPos =>
      (true,
       LeftS.map (fun _ => String.mk (Self.toList.take InPos)),
       RightS.map (fun _ => String.mk (Self.toList.drop (InPos + InS.length))))

/-- Characters that `FPlatformHttp::UrlEncode` leaves as they are. -/
def FPlatformHttp.IsAllowedChar (B : UInt8) : Bool :=
  let C := Char.ofNat B.toNat
  C.isAlphanum || C == '-' || C == '_' || C == '.' || C == '~'

/-- Upper-case hexadecimal digit of a value below 16. -/
def FPlatformHttp.HexDigit (N : Nat) : Char :=
  if N < 10 then Char.ofNat (48 + N) else Char.ofNat (55 + N)

/-- `FPlatformHttp::UrlEncode`: every byte of the UTF-8 form of the string is
kept when it is an unreserved character, and written as `%XX` otherwise (a zero
byte is dropped). -/
def FPlatformHttp.UrlEncode (UnencodedString : String) : String :=
  String.mk ((UnencodedString.toList.flatMap String.utf8EncodeChar).flatMap fun B =>
    if FPlatformHttp.IsAllowedChar B then [Char.ofNat B.toNat]
    else if B ≠ 0 then
      ['%', FPlatformHttp.HexDigit (B.toNat / 16), FPlatformHttp.HexDigit (B.toNat % 16)]
    else [])

/-- `FFileHelper::SaveArrayToFile`: the file system is an oracle that tells, for
the bytes and the path, whether the write succeeds. -/
abbrev FileSystem := List UInt8 → String → Bool

/-- White space skipped by `FCString::Atoi` before the number. -/
def FCString.IsSpace (C : Char) : Bool :=
  C == ' ' || (9 ≤ C.toNat && C.toNat ≤ 13)

/-- Digits read by `FCString::Atoi`: reading stops at the first character that
is not a decimal digit. -/
def FCString.AtoiDigits : Int → List Char → Int
  | Acc, [] => Acc
  | Acc, C :: Cs =>
      if C.isDigit then FCString.AtoiDigits (Acc * 10 + ((C.toNat : Int) - 48)) Cs else Acc

/-- Value of an integer stored in an `int32`. -/
def ToInt32 (N : Int) : Int :=
  (N + 2 ^ 31) % 2 ^ 32 - 2 ^ 31

/-- `FCString::Atoi`: leading white space, an optional sign, decimal digits; text
without a number gives 0.  The engine leaves the result for numbers outside the
`int32` range to the platform; here they wrap. -/
def FCString.Atoi (S : String) : Int :=
  match S.toList.dropWhile FCString.IsSpace with
  | '-' :: Rest => ToInt32 (- FCString.AtoiDigits 0 Rest)
  | '+' :: Rest => ToInt32 (FCString.AtoiDigits 0 Rest)
  | Cs => ToInt32 (FCString.AtoiDigits 0 Cs)

/-! ## The transport response and its wrapper (`HttpResponse.cpp`) -/

/-- The response object of the transport (`IHttpResponse`), as far as the plugin
reads it. -/
structure IHttpResponse where
  ResponseCode : Int
  AllHeaders : List String
  ContentType : String
  Content : List UInt8
  ContentAsString : String
  ContentLength : Int
  URL : String
  URLParameters : TMap String String := []
  deriving DecidableEq, Repr

/-- `IHttpResponse::GetHeader`: the value of the first header line with that
name, empty when there is none. -/
def IHttpResponse.GetHeader (Self : IHttpResponse) (HeaderName : String) : String :=
  let Found := Self.AllHeaders.findSome? fun Line =>
    match FString.Split Line ": " (some "") (some "") with
    | (true, some K, some V) => if FString.EqualsIgnoreCase K HeaderName then some V else none
    | _ => none
  match Found with
  | some V => V
  | none => ""

/-- `IHttpResponse::GetURLParameter`: the value of the parameter of the URL with
that name (the parameters are kept in `URLParameters`), empty when there is
none. -/
def IHttpResponse.GetURLParameter (Self : IHttpResponse) (ParameterName : String) : String :=
  match Self.URLParameters.find? (fun P => P.1 == ParameterName) with
  | some P => P.2
  | none => ""

/-- `UHttpResponse`: the wrapper around the response of the transport, which may
be absent, and the request duration captured by `InitInternal`. -/
structure UHttpResponse where
  RequestDuration : ℚ
  Response : Option IHttpResponse
  deriving DecidableEq, Repr

namespace UHttpResponse

/-- Constructor of `UHttpResponse`: no response yet, duration 0. -/
def New : UHttpResponse :=
  { RequestDuration := 0, Response := none }

/-- `UHttpResponse::InitInternal`. -/
def InitInternal (_Self : UHttpResponse) (InResponse : Option IHttpResponse)
    (InRequestDuration : ℚ) : UHttpResponse :=
  { Response := InResponse, RequestDuration := InRequestDuration }

/-- `UHttpResponse::GetAllHeaders`.  `Key` and `Value` are null pointers when
they are handed to `Split`. -/
def GetAllHeaders (Self : UHttpResponse) : TMap String String :=
  match Self.Response with
  | none => []
  | some Response =>
      Response.AllHeaders.foldl (fun OutHeaders Header =>
        let Key : Option String := none
        let Value : Option String := none
        match FString.Split Header ": " Key Value with
        | (_, some K, some V) => TMap.Emplace OutHeaders K V
        | _ => OutHeaders) []

/-- `UHttpResponse::GetContent`: the output array is overwritten only when there
is a response. -/
def GetContent (Self : UHttpResponse) (OutContent : List UInt8) : List UInt8 :=
  match Self.Response with
  | some Response => Response.Content
  | none => OutContent

/-- `UHttpResponse::GetContentAsString`. -/
def GetContentAsString (Self : UHttpResponse) : String :=
  match Self.Response with
  | some Response => Response.ContentAsString
  | none => ""

/-- `UHttpResponse::GetContentLength`. -/
def GetContentLength (Self : UHttpResponse) : Int :=
  match Self.Response with
  | some Response => Response.ContentLength
  | none => 0

/-- `UHttpResponse::GetContentType`. -/
def GetContentType (Self : UHttpResponse) : String :=
  match Self.Response with
  | some Response => Response.ContentType
  | none => ""

/-- `UHttpResponse::GetHeader`. -/
def GetHeader (Self : UHttpResponse) (Key : String) : String :=
  match Self.Response with
  | some Response => Response.GetHeader Key
  | none => ""

/-- `UHttpResponse::GetResponseCode`. -/
def GetResponseCode (Self : UHttpResponse) : Int :=
  match Self.Response with
  | some Response => Response.ResponseCode
  | none => -1

/-- `UHttpResponse::GetURL`. -/
def GetURL (Self : UHttpResponse) : String :=
  match Self.Response with
  | some Response => Response.URL
  | none => ""

/-- `UHttpResponse::GetURLParameter`. -/
def GetURLParameter (Self : UHttpResponse) (ParameterName : String) : String :=
  match Self.Response with
  | some Response => Response.GetURLParameter ParameterName
  | none => ""

/-- `UHttpResponse::GetElapsedTime`. -/
def GetElapsedTime (Self : UHttpResponse) : ℚ :=
  Self.RequestDuration

end UHttpResponse

/-! ## The transport request and its wrapper (`HttpRequest.h/.cpp`) -/

/-- `EHttpMimeType`. -/
inductive EHttpMimeType where
  | url | form | txt | html | aac | arc | avi | bin | bmp | css | csv | doc | gz
  | gif | jpg | js | json | mp3 | mpkg | png | pdf | php | rar | tar | xml | zip | _7z
  deriving DecidableEq, Repr

/-- `EHttpVerb`, an `enum class` over `uint8`: a value of the type is any `uint8`
value, and the enumerators name the values 0 to 6. -/
structure EHttpVerb where
  Value : Fin 256
  deriving DecidableEq, Repr

namespace EHttpVerb

/-- Enumerator `GET`. -/
def GET : EHttpVerb := ⟨0⟩

/-- Enumerator `POST`. -/
def POST : EHttpVerb := ⟨1⟩

/-- Enumerator `PUT`. -/
def PUT : EHttpVerb := ⟨2⟩

/-- Enumerator `PATCH`. -/
def PATCH : EHttpVerb := ⟨3⟩

/-- Enumerator `HEAD`. -/
def HEAD : EHttpVerb := ⟨4⟩

/-- Enumerator `DELETE`. -/
def DELETE : EHttpVerb := ⟨5⟩

/-- Enumerator `MAX_COUNT`, hidden in the editor. -/
def MAX_COUNT : EHttpVerb := ⟨6⟩

/-- The `uint8` value of an `EHttpVerb` (`static_cast<uint8>(InVerb)`). -/
def toUInt8 (Self : EHttpVerb) : Nat :=
  Self.Value.val

end EHttpVerb

/-- `EBlueprintHttpRequestStatus`. -/
inductive EBlueprintHttpRequestStatus where
  | NotStarted | Processing | Failed | Failed_ConnectionError | Succeeded
  deriving DecidableEq, Repr

/-- The static table `Enum` of `CreateMimeType`. -/
def CreateMimeType.Enum : List (EHttpMimeType × String) :=
  [(.url, "application/x-www-form-urlencoded"),
   (.form, "multipart/form-data"),
   (.txt, "text/plain"),
   (.html, "text/html"),
   (.aac, "audio/aac"),
   (.arc, "application/x-freearc"),
   (.avi, "video/x-msvideo"),
   (.bin, "application/octet-stream"),
   (.bmp, "image/bmp"),
   (.css, "text/css"),
   (.csv, "text/csv"),
   (.doc, "application/msword"),
   (.gz, "application/gzip"),
   (.gif, "image/gif"),
   (.jpg, "image/jpeg"),
   (.js, "text/javascript"),
   (.json, "application/json"),
   (.mp3, "audio/mpeg"),
   (.mpkg, "application/vnd.apple.installer+xml"),
   (.png, "image/png"),
   (.pdf, "application/pdf"),
   (.php, "application/x-httpd-php"),
   (.rar, "application/vnd.rar"),
   (.tar, "application/x-tar"),
   (.xml, "application/xml"),
   (.zip, "application/zip"),
   (._7z, "application/x-7z-compressed")]

/-- `UBlueprintHttpLibrary::CreateMimeType`. -/
def CreateMimeType (MimeTypeKey : EHttpMimeType) : String :=
  match CreateMimeType.Enum.lookup MimeTypeKey with
  | some MimeType => MimeType
  | none => "INVALID_MIME_TYPE"

/-- The request object of the transport (`IHttpRequest`): its configuration and
what the transport reports about it. -/
structure IHttpRequest where
  Verb : String
  URL : String
  Headers : TMap String String
  Content : List UInt8
  ElapsedTime : ℚ
  Status : EBlueprintHttpRequestStatus
  deriving DecidableEq, Repr

namespace IHttpRequest

/-- Request made by `FHttpModule::CreateRequest`. -/
def Create : IHttpRequest :=
  { Verb := "", URL := "", Headers := [], Content := [], ElapsedTime := 0,
    Status := .NotStarted }

/-- `IHttpRequest::GetHeader`: the value of the header, empty when absent. -/
def GetHeader (Self : IHttpRequest) (HeaderName : String) : String :=
  match Self.Headers.find? (fun P => FString.EqualsIgnoreCase P.1 HeaderName) with
  | some P => P.2
  | none => ""

/-- `IHttpRequest::GetContentType`. -/
def GetContentType (Self : IHttpRequest) : String :=
  Self.GetHeader "Content-Type"

/-- `IHttpRequest::SetHeader`. -/
def SetHeader (Self : IHttpRequest) (HeaderName HeaderValue : String) : IHttpRequest :=
  { Self with Headers := TMap.Emplace Self.Headers HeaderName HeaderValue }

/-- `IHttpRequest::AppendToHeader`: the value is appended to a non-empty
existing value after a comma and a blank; empty arguments are ignored. -/
def AppendToHeader (Self : IHttpRequest) (HeaderName AdditionalHeaderValue : String) :
    IHttpRequest :=
  if HeaderName.isEmpty || AdditionalHeaderValue.isEmpty then Self
  else
    let PreviousValue := Self.GetHeader HeaderName
    let NewValue :=
      if PreviousValue.isEmpty then AdditionalHeaderValue
      else PreviousValue ++ ", " ++ AdditionalHeaderValue
    Self.SetHeader HeaderName NewValue

/-- `IHttpRequest::GetAllHeaders`: one line `Name: Value` for every header. -/
def GetAllHeaders (Self : IHttpRequest) : List String :=
  Self.Headers.map fun P => P.1 ++ ": " ++ P.2

end IHttpRequest

/-- The transport decides whether a request can be started
(`IHttpRequest::ProcessRequest`). -/
abbrev Transport := IHttpRequest → Bool

/-- A member function that `AddDynamic` binds to a delegate of `UHttpRequest`. -/
inductive EBoundFunction where
  | UHttpDownloadFileProxy_OnRequestCompleted
  | UHttpDownloadFileProxy_OnRequestTick
  | UHttpDownloadFileProxy_OnHeadersReceived
  | USendHttpRequestProxyBase__OnTickInternal
  | USendHttpRequestProxyBase__OnCompleteInternal
  | UProcessHttpRequestProxy_OnCompleteInternal
  | UProcessHttpRequestProxy_OnTickInternal
  deriving DecidableEq, Repr

/-- `AddDynamic`: the function is added to the invocation list of the delegate. -/
def AddDynamic (Delegate : List EBoundFunction) (Function : EBoundFunction) :
    List EBoundFunction :=
  Delegate ++ [Function]

/-- `UHttpRequest`: the wrapper around the request of the transport, and the
functions bound to its multicast delegates `OnRequestComplete`,
`OnRequestProgress` and `OnRequestHeaderReceived` (none when it is created). -/
structure UHttpRequest where
  Request : IHttpRequest
  OnRequestComplete : List EBoundFunction := []
  OnRequestProgress : List EBoundFunction := []
  OnRequestHeaderReceived : List EBoundFunction := []
  deriving DecidableEq, Repr

namespace UHttpRequest

/-- `UHttpRequest::CreateRequest` (the constructor makes the transport request). -/
def CreateRequest : UHttpRequest :=
  { Request := IHttpRequest.Create }

/-- The static table `Converted` of `ConvertEnumVerbToString`. -/
def ConvertEnumVerbToString.Converted : List String :=
  ["GET", "POST", "PUT", "PATCH", "HEAD", "DELETE"]

/-- `UHttpRequest::CreateResponse`: a new wrapper, initialised with the response
of the transport (which may be absent) and the elapsed time of the request. -/
def CreateResponse (RawRequest : IHttpRequest) (RawResponse : Option IHttpResponse) :
    UHttpResponse :=
  UHttpResponse.New.InitInternal RawResponse RawRequest.ElapsedTime

/-- `UHttpRequest::ConvertEnumVerbToString`. -/
def ConvertEnumVerbToString (InVerb : EHttpVerb) : String :=
  let VerbsCount : Nat := EHttpVerb.MAX_COUNT.toUInt8
  let Uint8Verb : Nat := InVerb.toUInt8
  if Uint8Verb ≥ VerbsCount then "NONE"
  else ConvertEnumVerbToString.Converted.getD Uint8Verb ""

/-- `UHttpRequest::SetCustomVerb`. -/
def SetCustomVerb (Self : UHttpRequest) (Verb : String) : UHttpRequest :=
  { Self with Request := { Self.Request with Verb := Verb } }

/-- `UHttpRequest::SetVerb`. -/
def SetVerb (Self : UHttpRequest) (InVerb : EHttpVerb) : UHttpRequest :=
  Self.SetCustomVerb (ConvertEnumVerbToString InVerb)

/-- `UHttpRequest::SetHeader`. -/
def SetHeader (Self : UHttpRequest) (Key Value : String) : UHttpRequest :=
  { Self with Request := Self.Request.SetHeader Key Value }

/-- `UHttpRequest::SetHeaders`. -/
def SetHeaders (Self : UHttpRequest) (Headers : TMap String String) : UHttpRequest :=
  Headers.foldl (fun R Header => { R with Request := R.Request.SetHeader Header.1 Header.2 }) Self

/-- `UHttpRequest::AppendToHeader`. -/
def AppendToHeader (Self : UHttpRequest) (Key Value : String) : UHttpRequest :=
  { Self with Request := Self.Request.AppendToHeader Key Value }

/-- `UHttpRequest::SetURL`. -/
def SetURL (Self : UHttpRequest) (Url : String) : UHttpRequest :=
  { Self with Request := { Self.Request with URL := Url } }

/-- `UHttpRequest::SetMimeType`. -/
def SetMimeType (Self : UHttpRequest) (MimeType : EHttpMimeType) : UHttpRequest :=
  { Self with Request := Self.Request.AppendToHeader "Content-Type" (CreateMimeType MimeType) }

/-- `UHttpRequest::SetMimeTypeAsString`. -/
def SetMimeTypeAsString (Self : UHttpRequest) (MimeType : String) : UHttpRequest :=
  { Self with Request := Self.Request.AppendToHeader "Content-Type" MimeType }

/-- `UHttpRequest::SetContent`. -/
def SetContent (Self : UHttpRequest) (Content : List UInt8) : UHttpRequest :=
  { Self with Request := { Self.Request with Content := Content } }

/-- `UHttpRequest::SetContentAsString`: the transport stores the UTF-8 bytes. -/
def SetContentAsString (Self : UHttpRequest) (Content : String) : UHttpRequest :=
  { Self with Request :=
      { Self.Request with Content := Content.toList.flatMap String.utf8EncodeChar } }

/-- The `for` loop of `UHttpRequest::GetAllHeaders` over the header lines.  `Key`
and `Value` are the two `FString*` variables declared before the loop; when
`Split` returns true, `*Key` and `*Value` are read, which faults on a null
pointer. -/
def GetAllHeaders.Loop :
    Option String → Option String → TMap String String → List String →
      Except Fault (TMap String String)
  | _, _, OutHeaders, [] => .ok OutHeaders
  | Key, Value, OutHeaders, Header :: Headers =>
      match FString.Split Header ": " Key Value with
      | (true, some K, some V) =>
          GetAllHeaders.Loop (some K) (some V) (TMap.Emplace OutHeaders K V) Headers
      | (true, _, _) => .error .NullDereference
      | (false, Key, Value) => GetAllHeaders.Loop Key Value OutHeaders Headers

/-- `UHttpRequest::GetAllHeaders`: `Key` and `Value` start as null pointers. -/
def GetAllHeaders (Self : UHttpRequest) : Except Fault (TMap String String) :=
  GetAllHeaders.Loop none none [] Self.Request.GetAllHeaders

/-- `UHttpRequest::GetElapsedTime`. -/
def GetElapsedTime (Self : UHttpRequest) : ℚ :=
  Self.Request.ElapsedTime

/-- `UHttpRequest::GetStatus`. -/
def GetStatus (Self : UHttpRequest) : EBlueprintHttpRequestStatus :=
  Self.Request.Status

/-- `UHttpRequest::ProcessRequest`: the flag returned by the transport and the
request as it is after the call. -/
def ProcessRequest (T : Transport) (Self : UHttpRequest) : Bool × UHttpRequest :=
  let Self := if Self.Request.GetContentType == "" then Self.SetMimeType .txt else Self
  (T Self.Request, Self)

end UHttpRequest

/-! ## `UBlueprintHttpLibrary::AddParametersToUrl` -/

/-- The `for` loop of `AddParametersToUrl`: `I` counts the pairs already written,
`It` is the rest of the iteration. -/
def AddParametersToUrl.Loop (ParametersCount : Int) :
    String → Int → List (String × String) → String
  | InUrl, _, [] => InUrl
  | InUrl, I, (Key, Value) :: It =>
      let InUrl := InUrl ++ (FPlatformHttp.UrlEncode Key ++ "=" ++ FPlatformHttp.UrlEncode Value)
      let InUrl := if I ≠ ParametersCount - 1 then InUrl ++ "&" else InUrl
      AddParametersToUrl.Loop ParametersCount InUrl (I + 1) It

/-- `UBlueprintHttpLibrary::AddParametersToUrl`. -/
def AddParametersToUrl (InUrl : String) (Parameters : TMap String String) : String :=
  let ParametersCount : Int := Parameters.length
  if ParametersCount < 1 then InUrl
  else AddParametersToUrl.Loop ParametersCount (InUrl ++ "?") 0 Parameters

/-- `UBlueprintHttpLibrary::StringToVerb`; `==` on `FString` ignores letter
case. -/
def StringToVerb (Verb : String) : EHttpVerb :=
  if FString.EqualsIgnoreCase "POST" Verb then .POST
  else if FString.EqualsIgnoreCase "PUT" Verb then .PUT
  else if FString.EqualsIgnoreCase "PATCH" Verb then .PATCH
  else if FString.EqualsIgnoreCase "HEAD" Verb then .HEAD
  else if FString.EqualsIgnoreCase "DELETE" Verb then .DELETE
  else .GET

/-- `UBlueprintHttpLibrary::CreateInitializedRequest`. -/
def CreateInitializedRequest (Url : String) (UrlParameters : TMap String String)
    (Verb : EHttpVerb) (MimeType : EHttpMimeType) (Content : String)
    (Headers : TMap String String) : UHttpRequest :=
  let Request := UHttpRequest.CreateRequest
  let Request := Request.SetURL (AddParametersToUrl Url UrlParameters)
  let Request := Request.SetVerb Verb
  let Request := Request.SetContentAsString Content
  let Request := Request.SetMimeType MimeType
  Headers.foldl (fun R Pair => R.SetHeader Pair.1 Pair.2) Request

/-- `UBlueprintHttpLibrary::CreateInitializedBinaryRequest`. -/
def CreateInitializedBinaryRequest (Url : String) (UrlParameters : TMap String String)
    (Verb : EHttpVerb) (MimeType : EHttpMimeType) (Content : List UInt8)
    (Headers : TMap String String) : UHttpRequest :=
  let Request := UHttpRequest.CreateRequest
  let Request := Request.SetURL (AddParametersToUrl Url UrlParameters)
  let Request := Request.SetVerb Verb
  let Request := Request.SetContent Content
  let Request := Request.SetMimeType MimeType
  Headers.foldl (fun R Pair => R.SetHeader Pair.1 Pair.2) Request

/-- The text that `AddParametersToUrl` writes for one parameter. -/
def AddParametersToUrl.Pair (P : String × String) : String :=
  FPlatformHttp.UrlEncode P.1 ++ "=" ++ FPlatformHttp.UrlEncode P.2

/-! ## `UHttpDownloadFileProxy` (`BlueprintHttpNodes.h/.cpp`) -/

/-- The three delegates of `UHttpDownloadFileProxy`. -/
inductive EDownloadDelegate where
  | OnFileDownloaded | OnFileDownloadError | OnDownloadProgress
  deriving DecidableEq, Repr

/-- One broadcast of an `FOnFileDownloadedEvent` delegate. -/
structure FOnFileDownloadedEvent where
  Delegate : EDownloadDelegate
  TotalSizeInBytes : Int
  TotalBytesReceived : Int
  PercentDownloaded : ℚ
  deriving DecidableEq, Repr

/-- `UHttpDownloadFileProxy`; `bReadyToDestroy` records `SetReadyToDestroy`. -/
structure UHttpDownloadFileProxy where
  Request : UHttpRequest
  ContentLength : Int
  Downloaded : Int
  SaveLocation : String
  bReadyToDestroy : Bool
  deriving DecidableEq, Repr

namespace UHttpDownloadFileProxy

/-- `UHttpDownloadFileProxy::GetPercents`. -/
def GetPercents (Self : UHttpDownloadFileProxy) : ℚ :=
  if Self.ContentLength ≠ 0 then (Self.Downloaded : ℚ) * 100 / (Self.ContentLength : ℚ) else 0

/-- `UHttpDownloadFileProxy::HttpDownloadFile`. -/
def HttpDownloadFile (FileUrl : String) (UrlParameters : TMap String String)
    (Verb : EHttpVerb) (MimeType : EHttpMimeType) (Content : String)
    (Headers : TMap String String) (SaveFileLocation : String) : UHttpDownloadFileProxy :=
  let Request := UHttpRequest.CreateRequest
  let Request := Request.SetVerb Verb
  let Request := Request.SetHeaders Headers
  let Request := Request.SetURL (AddParametersToUrl FileUrl UrlParameters)
  let Request := Request.SetMimeType MimeType
  let Request := Request.SetContentAsString Content
  { Request := Request, ContentLength := 0, Downloaded := 0,
    SaveLocation := SaveFileLocation, bReadyToDestroy := false }

/-- `UHttpDownloadFileProxy::Activate` (the three handlers are subscribed to the
request, which is then submitted). -/
def Activate (T : Transport) (Self : UHttpDownloadFileProxy) :
    UHttpDownloadFileProxy × List FOnFileDownloadedEvent :=
  let Request := Self.Request
  let Request := { Request with
    OnRequestComplete :=
      AddDynamic Request.OnRequestComplete .UHttpDownloadFileProxy_OnRequestCompleted }
  let Request := { Request with
    OnRequestProgress :=
      AddDynamic Request.OnRequestProgress .UHttpDownloadFileProxy_OnRequestTick }
  let Request := { Request with
    OnRequestHeaderReceived :=
      AddDynamic Request.OnRequestHeaderReceived .UHttpDownloadFileProxy_OnHeadersReceived }
  let Started := Request.ProcessRequest T
  let Self := { Self with Request := Started.2 }
  if !Started.1 then
    ({ Self with bReadyToDestroy := true }, [⟨.OnFileDownloadError, 0, 0, 0⟩])
  else (Self, [])

/-- `UHttpDownloadFileProxy::OnRequestCompleted` (the request argument is not
read). -/
def OnRequestCompleted (FS : FileSystem) (Self : UHttpDownloadFileProxy)
    (Response : Option UHttpResponse) (bConnectedSuccessfully : Bool) :
    UHttpDownloadFileProxy × List FOnFileDownloadedEvent :=
  let Args (D : EDownloadDelegate) : FOnFileDownloadedEvent :=
    ⟨D, Self.ContentLength, Self.Downloaded, Self.GetPercents⟩
  let Events :=
    if !bConnectedSuccessfully then [Args .OnFileDownloadError]
    else
      match Response with
      | some R =>
          if R.GetResponseCode < 400 then
            let Content := R.GetContent []
            if !FS Content Self.SaveLocation then [Args .OnFileDownloadError]
            else [Args .OnFileDownloaded]
          else [Args .OnFileDownloadError]
      | none => [Args .OnFileDownloadError]
  ({ Self with bReadyToDestroy := true }, Events)

/-- `UHttpDownloadFileProxy::OnRequestTick` (the request argument is not read). -/
def OnRequestTick (Self : UHttpDownloadFileProxy) (_BytesSent BytesReceived : Int) :
    UHttpDownloadFileProxy × List FOnFileDownloadedEvent :=
  let Self := { Self with Downloaded := BytesReceived }
  (Self, [⟨.OnDownloadProgress, Self.ContentLength, Self.Downloaded, Self.GetPercents⟩])

/-- `UHttpDownloadFileProxy::OnHeadersReceived` (the request argument is not
read). -/
def OnHeadersReceived (Self : UHttpDownloadFileProxy) (HeaderName NewHeaderValue : String) :
    UHttpDownloadFileProxy × List FOnFileDownloadedEvent :=
  if FString.EqualsIgnoreCase HeaderName "Content-Length" then
    ({ Self with ContentLength := FCString.Atoi NewHeaderValue }, [])
  else (Self, [])

end UHttpDownloadFileProxy

/-- A callback of the request delegates the download proxy is subscribed to
(`OnRequestComplete`, `OnRequestProgress`, `OnRequestHeaderReceived`). -/
inductive DownloadCallback where
  | RequestCompleted (Response : Option UHttpResponse) (bConnectedSuccessfully : Bool)
  | RequestTick (BytesSent BytesReceived : Int)
  | HeadersReceived (HeaderName NewHeaderValue : String)
  deriving DecidableEq, Repr

/-- The handler that a callback invokes on the download proxy. -/
def UHttpDownloadFileProxy.Dispatch (FS : FileSystem) (Self : UHttpDownloadFileProxy) :
    DownloadCallback → UHttpDownloadFileProxy × List FOnFileDownloadedEvent
  | .RequestCompleted Response bConnectedSuccessfully =>
      Self.OnRequestCompleted FS Response bConnectedSuccessfully
  | .RequestTick BytesSent BytesReceived => Self.OnRequestTick BytesSent BytesReceived
  | .HeadersReceived HeaderName NewHeaderValue =>
      Self.OnHeadersReceived HeaderName NewHeaderValue

/-- The download proxy receiving a sequence of callbacks: the final state and all
the events broadcast, in order. -/
def UHttpDownloadFileProxy.Run (FS : FileSystem) :
    UHttpDownloadFileProxy → List DownloadCallback →
      UHttpDownloadFileProxy × List FOnFileDownloadedEvent
  | Self, [] => (Self, [])
  | Self, Cb :: Cbs =>
      let Step := UHttpDownloadFileProxy.Dispatch FS Self Cb
      let Rest := UHttpDownloadFileProxy.Run FS Step.1 Cbs
      (Rest.1, Step.2 ++ Rest.2)

/-! ## `USendHttpRequestProxyBase` and its two subclasses -/

/-- The three delegates of a send-request proxy. -/
inductive ERequestDelegate where
  | OnResponse | OnError | OnTick
  deriving DecidableEq, Repr

/-- One broadcast of an `FOnRequestEvent` (`C` is `FString`) or of an
`FOnBinaryRequestEvent` (`C` is `TArray<uint8>`) delegate. -/
structure FOnRequestEvent (C : Type) where
  Delegate : ERequestDelegate
  ResponseCode : Int
  Headers : TMap String String
  ContentType : String
  Content : C
  TimeElapsed : ℚ
  ConnectionStatus : EBlueprintHttpRequestStatus
  BytesSent : Int
  BytesReceived : Int
  deriving DecidableEq, Repr

/-- `USendHttpRequestProxyBase`; `bReadyToDestroy` records `SetReadyToDestroy`. -/
structure USendHttpRequestProxyBase where
  RequestWrapper : UHttpRequest
  BytesSent : Int
  BytesReceived : Int
  bReadyToDestroy : Bool
  deriving DecidableEq, Repr

/-- What a handler of a send-request proxy yields: a fault, or the new state and
the events broadcast. -/
abbrev SendResult (C : Type) := Except Fault (USendHttpRequestProxyBase × List (FOnRequestEvent C))

/-- The virtual functions that a subclass of `USendHttpRequestProxyBase`
overrides. -/
structure SendProxyClass (C : Type) where
  OnTickInternal : USendHttpRequestProxyBase → SendResult C
  OnSuccessInternal : USendHttpRequestProxyBase → Option UHttpResponse → SendResult C
  OnErrorInternal : USendHttpRequestProxyBase → Option UHttpResponse → SendResult C

namespace USendHttpRequestProxyBase

/-- Constructor of `USendHttpRequestProxyBase` (the two internal handlers are
subscribed to the new request). -/
def New : USendHttpRequestProxyBase :=
  let RequestWrapper := UHttpRequest.CreateRequest
  let RequestWrapper := { RequestWrapper with
    OnRequestProgress :=
      AddDynamic RequestWrapper.OnRequestProgress .USendHttpRequestProxyBase__OnTickInternal }
  let RequestWrapper := { RequestWrapper with
    OnRequestComplete :=
      AddDynamic RequestWrapper.OnRequestComplete
        .USendHttpRequestProxyBase__OnCompleteInternal }
  { RequestWrapper := RequestWrapper, BytesSent := 0, BytesReceived := 0,
    bReadyToDestroy := false }

/-- `USendHttpRequestProxyBase::_OnTickInternal` (the request argument is not
read). -/
def _OnTickInternal {C : Type} (Class : SendProxyClass C) (Self : USendHttpRequestProxyBase)
    (InBytesSent InBytesReceived : Int) : SendResult C :=
  Class.OnTickInternal { Self with BytesSent := InBytesSent, BytesReceived := InBytesReceived }

/-- `USendHttpRequestProxyBase::_OnCompleteInternal` (the request argument is not
read). -/
def _OnCompleteInternal {C : Type} (Class : SendProxyClass C) (Self : USendHttpRequestProxyBase)
    (Response : Option UHttpResponse) (bConnectedSuccessfully : Bool) : SendResult C :=
  let Reported :=
    if bConnectedSuccessfully then Class.OnSuccessInternal Self Response
    else Class.OnErrorInternal Self Response
  match Reported with
  | .error F => .error F
  | .ok (Self, Events) => .ok ({ Self with bReadyToDestroy := true }, Events)

/-- `USendHttpRequestProxyBase::SendRequest`. -/
def SendRequest {C : Type} (Class : SendProxyClass C) (T : Transport)
    (Self : USendHttpRequestProxyBase) : SendResult C :=
  let Started := Self.RequestWrapper.ProcessRequest T
  let Self := { Self with RequestWrapper := Started.2 }
  if !Started.1 then Class.OnErrorInternal Self none
  else .ok (Self, [])

end USendHttpRequestProxyBase

namespace USendHttpRequestProxy

/-- `USendHttpRequestProxy::OnTickInternal`. -/
def OnTickInternal (Self : USendHttpRequestProxyBase) : SendResult String :=
  .ok (Self, [⟨.OnTick, 100, [], "", "", Self.RequestWrapper.GetElapsedTime,
    Self.RequestWrapper.GetStatus, Self.BytesSent, Self.BytesReceived⟩])

/-- `USendHttpRequestProxy::OnSuccessInternal`. -/
def OnSuccessInternal (Self : USendHttpRequestProxyBase) (Response : Option UHttpResponse) :
    SendResult String :=
  match Response with
  | none => .error .NullDereference
  | some R =>
      .ok ({ Self with bReadyToDestroy := true },
        [⟨.OnResponse, R.GetResponseCode, R.GetAllHeaders, R.GetContentType,
          R.GetContentAsString, R.GetElapsedTime, Self.RequestWrapper.GetStatus,
          Self.BytesSent, Self.BytesReceived⟩])

/-- `USendHttpRequestProxy::OnErrorInternal`. -/
def OnErrorInternal (Self : USendHttpRequestProxyBase) (Response : Option UHttpResponse) :
    SendResult String :=
  match Response with
  | none => .error .NullDereference
  | some R =>
      .ok ({ Self with bReadyToDestroy := true },
        [⟨.OnError, R.GetResponseCode, R.GetAllHeaders, R.GetContentType,
          R.GetContentAsString, R.GetElapsedTime, Self.RequestWrapper.GetStatus,
          Self.BytesSent, Self.BytesReceived⟩])

/-- The overrides of `USendHttpRequestProxy`. -/
def Class : SendProxyClass String :=
  { OnTickInternal := OnTickInternal, OnSuccessInternal := OnSuccessInternal,
    OnErrorInternal := OnErrorInternal }

/-- `USendHttpRequestProxy::SendHttpRequest`. -/
def SendHttpRequest (T : Transport) (ServerUrl : String) (UrlParameters : TMap String String)
    (Verb : EHttpVerb) (MimeType : EHttpMimeType) (Content : String)
    (Headers : TMap String String) : SendResult String :=
  let Proxy := USendHttpRequestProxyBase.New
  let Request := Proxy.RequestWrapper
  let Request := Request.SetURL (AddParametersToUrl ServerUrl UrlParameters)
  let Request := Request.SetMimeType MimeType
  let Request := Request.SetVerb Verb
  let Request := Request.SetContentAsString Content
  let Request := Request.SetHeaders Headers
  USendHttpRequestProxyBase.SendRequest Class T { Proxy with RequestWrapper := Request }

end USendHttpRequestProxy

namespace USendBinaryHttpRequestProxy

/-- `USendBinaryHttpRequestProxy::OnTickInternal`. -/
def OnTickInternal (Self : USendHttpRequestProxyBase) : SendResult (List UInt8) :=
  .ok (Self, [⟨.OnTick, 100, [], "", [], Self.RequestWrapper.GetElapsedTime,
    Self.RequestWrapper.GetStatus, Self.BytesSent, Self.BytesReceived⟩])

/-- `USendBinaryHttpRequestProxy::OnSuccessInternal`. -/
def OnSuccessInternal (Self : USendHttpRequestProxyBase) (Response : Option UHttpResponse) :
    SendResult (List UInt8) :=
  match Response with
  | none => .error .NullDereference
  | some R =>
      let Content := R.GetContent []
      .ok (Self,
        [⟨.OnResponse, R.GetResponseCode, R.GetAllHeaders, R.GetContentType, Content,
          R.GetElapsedTime, Self.RequestWrapper.GetStatus, Self.BytesSent,
          Self.BytesReceived⟩])

/-- `USendBinaryHttpRequestProxy::OnErrorInternal`. -/
def OnErrorInternal (Self : USendHttpRequestProxyBase) (Response : Option UHttpResponse) :
    SendResult (List UInt8) :=
  match Response with
  | none => .error .NullDereference
  | some R =>
      let Content := R.GetContent []
      .ok (Self,
        [⟨.OnError, R.GetResponseCode, R.GetAllHeaders, R.GetContentType, Content,
          R.GetElapsedTime, Self.RequestWrapper.GetStatus, Self.BytesSent,
          Self.BytesReceived⟩])

/-- The overrides of `USendBinaryHttpRequestProxy`. -/
def Class : SendProxyClass (List UInt8) :=
  { OnTickInternal := OnTickInternal, OnSuccessInternal := OnSuccessInternal,
    OnErrorInternal := OnErrorInternal }

/-- `USendBinaryHttpRequestProxy::SendBinaryHttpRequest`. -/
def SendBinaryHttpRequest (T : Transport) (ServerUrl : String)
    (UrlParameters : TMap String String) (Verb : EHttpVerb) (MimeType : EHttpMimeType)
    (Content : List UInt8) (Headers : TMap String String) : SendResult (List UInt8) :=
  let Proxy := USendHttpRequestProxyBase.New
  let Request := Proxy.RequestWrapper
  let Request := Request.SetURL (AddParametersToUrl ServerUrl UrlParameters)
  let Request := Request.SetVerb Verb
  let Request := Request.SetContent Content
  let Request := Request.SetMimeType MimeType
  let Request := Request.SetHeaders Headers
  USendHttpRequestProxyBase.SendRequest Class T { Proxy with RequestWrapper := Request }

end USendBinaryHttpRequestProxy

/-- A callback of the request delegates a send-request proxy is subscribed to
(`OnRequestProgress`, `OnRequestComplete`).  `Request` is the request object of
the proxy as the transport has left it at the time of the callback. -/
inductive SendCallback where
  | RequestProgress (Request : UHttpRequest) (BytesSent BytesReceived : Int)
  | RequestComplete (Request : UHttpRequest) (Response : Option UHttpResponse)
      (bConnectedSuccessfully : Bool)
  deriving DecidableEq, Repr

/-- The handler that a callback invokes on a send-request proxy. -/
def USendHttpRequestProxyBase.Dispatch {C : Type} (Class : SendProxyClass C)
    (Self : USendHttpRequestProxyBase) : SendCallback → SendResult C
  | .RequestProgress Request BytesSent BytesReceived =>
      USendHttpRequestProxyBase._OnTickInternal Class { Self with RequestWrapper := Request }
        BytesSent BytesReceived
  | .RequestComplete Request Response bConnectedSuccessfully =>
      USendHttpRequestProxyBase._OnCompleteInternal Class { Self with RequestWrapper := Request }
        Response bConnectedSuccessfully

/-- A send-request proxy receiving a sequence of callbacks: the events broadcast,
in order, and the final state, or the fault that stopped the program. -/
def USendHttpRequestProxyBase.Run {C : Type} (Class : SendProxyClass C) :
    USendHttpRequestProxyBase → List SendCallback →
      List (FOnRequestEvent C) × Except Fault USendHttpRequestProxyBase
  | Self, [] => ([], .ok Self)
  | Self, Cb :: Cbs =>
      match USendHttpRequestProxyBase.Dispatch Class Self Cb with
      | .error F => ([], .error F)
      | .ok (Self, Events) =>
          let Rest := USendHttpRequestProxyBase.Run Class Self Cbs
          (Events ++ Rest.1, Rest.2)

/-- The events of a handler result; a handler that faults broadcasts nothing. -/
def SendResult.Events {C : Type} : SendResult C → List (FOnRequestEvent C)
  | .ok (_, Events) => Events
  | .error _ => []

/-- In `Xs`, nothing comes after the first element that satisfies `P`. -/
def NothingAfterFirst {α : Type} (P : α → Bool) : List α → Bool
  | [] => true
  | X :: Xs => if P X then Xs.isEmpty else NothingAfterFirst P Xs

/-- The transport is quiet after the end of a request: it delivers no callback at
all after a submission it has rejected, and none after the first completion
callback otherwise. -/
def QuietAfterEnd {α : Type} (IsCompletion : α → Bool) (Accepted : Bool) (Cbs : List α) : Bool :=
  if Accepted then NothingAfterFirst IsCompletion Cbs else Cbs.isEmpty

/-- One request on the download proxy from its submission on: `Activate`, then the
callbacks that the transport delivers.  The final state and all the events
broadcast, in order. -/
def UHttpDownloadFileProxy.Lifecycle (T : Transport) (FS : FileSystem)
    (Self : UHttpDownloadFileProxy) (Cbs : List DownloadCallback) :
    UHttpDownloadFileProxy × List FOnFileDownloadedEvent :=
  let Activated := Self.Activate T
  let Ran := Activated.1.Run FS Cbs
  (Ran.1, Activated.2 ++ Ran.2)

/-- One request on a send-request proxy from its submission on: `SendRequest`,
then the callbacks that the transport delivers.  The events broadcast, in
order, and the final state, or the fault that stopped the program. -/
def USendHttpRequestProxyBase.Lifecycle {C : Type} (Class : SendProxyClass C) (T : Transport)
    (Self : USendHttpRequestProxyBase) (Cbs : List SendCallback) :
    List (FOnRequestEvent C) × Except Fault USendHttpRequestProxyBase :=
  match USendHttpRequestProxyBase.SendRequest Class T Self with
  | .error F => ([], .error F)
  | .ok (Self, Events) =>
      let Rest := USendHttpRequestProxyBase.Run Class Self Cbs
      (Events ++ Rest.1, Rest.2)

/-- Terminal events of the download proxy. -/
def FOnFileDownloadedEvent.IsTerminal (E : FOnFileDownloadedEvent) : Bool :=
  E.Delegate == .OnFileDownloaded || E.Delegate == .OnFileDownloadError

/-- Terminal events of a send-request proxy. -/
def FOnRequestEvent.IsTerminal {C : Type} (E : FOnRequestEvent C) : Bool :=
  E.Delegate == .OnResponse || E.Delegate == .OnError

/-- Completion callbacks of the download proxy. -/
def DownloadCallback.IsCompletion : DownloadCallback → Bool
  | .RequestCompleted _ _ => true
  | _ => false

/-- Completion callbacks of a send-request proxy. -/
def SendCallback.IsCompletion : SendCallback → Bool
  | .RequestComplete _ _ _ => true
  | _ => false

/-- The progress event of a tick while the total size is unknown: total size 0,
the bytes received, percent 0.  The other callbacks have none. -/
def DownloadCallback.ProgressWithoutLength : DownloadCallback → Option FOnFileDownloadedEvent
  | .RequestTick _ BytesReceived => some ⟨.OnDownloadProgress, 0, BytesReceived, 0⟩
  | _ => none

/-- A request object as a callback of a send-request proxy may carry it. -/
def SampleRequest : UHttpRequest :=
  UHttpRequest.CreateRequest

/-- Callbacks that are a progress tick or a header whose name is not
`Content-Length` (header names are compared without regard to case). -/
def DownloadCallback.IsTickOrOtherHeader : DownloadCallback → Bool
  | .RequestCompleted _ _ => false
  | .RequestTick _ _ => true
  | .HeadersReceived HeaderName _ => !FString.EqualsIgnoreCase HeaderName "Content-Length"

/-! ## `EHttpResponseCode` (`HttpResponseCode.h`) and the response code helpers -/

/-- `EHttpResponseCode`, the hidden section markers included, in the order of
the header. -/
inductive EHttpResponseCode where
  | C1XX_InformationResponses
  | C100
  | C101
  | C102
  | C103
  | C2XX_SuccessfulResponses
  | C200
  | C201
  | C202
  | C203
  | C204
  | C205
  | C206
  | C207
  | C208
  | C226
  | C3XX_RedirectionMessages
  | C300
  | C301
  | C302
  | C303
  | C304
  | C305
  | C306
  | C307
  | C308
  | C4XX_ClientErrorResponses
  | C400
  | C401
  | C402
  | C403
  | C404
  | C405
  | C406
  | C407
  | C408
  | C409
  | C410
  | C411
  | C412
  | C413
  | C414
  | C415
  | C416
  | C417
  | C418
  | C421
  | C422
  | C423
  | C424
  | C425
  | C426
  | C428
  | C429
  | C431
  | C451
  | C5XX_ServerErrorResponses
  | C500
  | C501
  | C502
  | C503
  | C504
  | C505
  | C506
  | C507
  | C508
  | C510
  | C511
  | CUknown
  deriving DecidableEq, Repr

namespace EHttpResponseCode

/-- The enumerators as the header declares them, in order, each with its
explicit initialiser when it has one. -/
def Declaration : List (EHttpResponseCode × Option Nat) :=
  [(EHttpResponseCode.C1XX_InformationResponses, some 0), (EHttpResponseCode.C100, none),
   (EHttpResponseCode.C101, none), (EHttpResponseCode.C102, none),
   (EHttpResponseCode.C103, none), (EHttpResponseCode.C2XX_SuccessfulResponses, none),
   (EHttpResponseCode.C200, none), (EHttpResponseCode.C201, none),
   (EHttpResponseCode.C202, none), (EHttpResponseCode.C203, none),
   (EHttpResponseCode.C204, none), (EHttpResponseCode.C205, none),
   (EHttpResponseCode.C206, none), (EHttpResponseCode.C207, none),
   (EHttpResponseCode.C208, none), (EHttpResponseCode.C226, none),
   (EHttpResponseCode.C3XX_RedirectionMessages, none), (EHttpResponseCode.C300, none),
   (EHttpResponseCode.C301, none), (EHttpResponseCode.C302, none),
   (EHttpResponseCode.C303, none), (EHttpResponseCode.C304, none),
   (EHttpResponseCode.C305, none), (EHttpResponseCode.C306, none),
   (EHttpResponseCode.C307, none), (EHttpResponseCode.C308, none),
   (EHttpResponseCode.C4XX_ClientErrorResponses, none), (EHttpResponseCode.C400, none),
   (EHttpResponseCode.C401, none), (EHttpResponseCode.C402, none),
   (EHttpResponseCode.C403, none), (EHttpResponseCode.C404, none),
   (EHttpResponseCode.C405, none), (EHttpResponseCode.C406, none),
   (EHttpResponseCode.C407, none), (EHttpResponseCode.C408, none),
   (EHttpResponseCode.C409, none), (EHttpResponseCode.C410, none),
   (EHttpResponseCode.C411, none), (EHttpResponseCode.C412, none),
   (EHttpResponseCode.C413, none), (EHttpResponseCode.C414, none),
   (EHttpResponseCode.C415, none), (EHttpResponseCode.C416, none),
   (EHttpResponseCode.C417, none), (EHttpResponseCode.C418, none),
   (EHttpResponseCode.C421, none), (EHttpResponseCode.C422, none),
   (EHttpResponseCode.C423, none), (EHttpResponseCode.C424, none),
   (EHttpResponseCode.C425, none), (EHttpResponseCode.C426, none),
   (EHttpResponseCode.C428, none), (EHttpResponseCode.C429, none),
   (EHttpResponseCode.C431, none), (EHttpResponseCode.C451, none),
   (EHttpResponseCode.C5XX_ServerErrorResponses, none), (EHttpResponseCode.C500, none),
   (EHttpResponseCode.C501, none), (EHttpResponseCode.C502, none),
   (EHttpResponseCode.C503, none), (EHttpResponseCode.C504, none),
   (EHttpResponseCode.C505, none), (EHttpResponseCode.C506, none),
   (EHttpResponseCode.C507, none), (EHttpResponseCode.C508, none),
   (EHttpResponseCode.C510, none), (EHttpResponseCode.C511, none),
   (EHttpResponseCode.CUknown, none)]

/-- The identifier of the enumerator. -/
def Name : EHttpResponseCode → String
  | .C1XX_InformationResponses => "C1XX_InformationResponses"
  | .C100 => "C100"
  | .C101 => "C101"
  | .C102 => "C102"
  | .C103 => "C103"
  | .C2XX_SuccessfulResponses => "C2XX_SuccessfulResponses"
  | .C200 => "C200"
  | .C201 => "C201"
  | .C202 => "C202"
  | .C203 => "C203"
  | .C204 => "C204"
  | .C205 => "C205"
  | .C206 => "C206"
  | .C207 => "C207"
  | .C208 => "C208"
  | .C226 => "C226"
  | .C3XX_RedirectionMessages => "C3XX_RedirectionMessages"
  | .C300 => "C300"
  | .C301 => "C301"
  | .C302 => "C302"
  | .C303 => "C303"
  | .C304 => "C304"
  | .C305 => "C305"
  | .C306 => "C306"
  | .C307 => "C307"
  | .C308 => "C308"
  | .C4XX_ClientErrorResponses => "C4XX_ClientErrorResponses"
  | .C400 => "C400"
  | .C401 => "C401"
  | .C402 => "C402"
  | .C403 => "C403"
  | .C404 => "C404"
  | .C405 => "C405"
  | .C406 => "C406"
  | .C407 => "C407"
  | .C408 => "C408"
  | .C409 => "C409"
  | .C410 => "C410"
  | .C411 => "C411"
  | .C412 => "C412"
  | .C413 => "C413"
  | .C414 => "C414"
  | .C415 => "C415"
  | .C416 => "C416"
  | .C417 => "C417"
  | .C418 => "C418"
  | .C421 => "C421"
  | .C422 => "C422"
  | .C423 => "C423"
  | .C424 => "C424"
  | .C425 => "C425"
  | .C426 => "C426"
  | .C428 => "C428"
  | .C429 => "C429"
  | .C431 => "C431"
  | .C451 => "C451"
  | .C5XX_ServerErrorResponses => "C5XX_ServerErrorResponses"
  | .C500 => "C500"
  | .C501 => "C501"
  | .C502 => "C502"
  | .C503 => "C503"
  | .C504 => "C504"
  | .C505 => "C505"
  | .C506 => "C506"
  | .C507 => "C507"
  | .C508 => "C508"
  | .C510 => "C510"
  | .C511 => "C511"
  | .CUknown => "CUknown"

/-- The `DisplayName` that `UMETA` declares for the enumerator, when it declares
one. -/
def DisplayName : EHttpResponseCode → Option String
  | .C100 => some "100 Continue"
  | .C101 => some "101 Switching Protocol"
  | .C102 => some "102 Processing"
  | .C103 => some "103 Early Hints"
  | .C200 => some "200 OK"
  | .C201 => some "201 Created"
  | .C202 => some "202 Accepted"
  | .C203 => some "203 Non-Authoritative Information"
  | .C204 => some "204 No Content"
  | .C205 => some "205 Reset Content"
  | .C206 => some "206 Partial Content"
  | .C207 => some "207 Multi-Status"
  | .C208 => some "208 Already Reported"
  | .C226 => some "226 IM Used"
  | .C300 => some "300 Multiple Choice"
  | .C301 => some "301 Moved Permanently"
  | .C302 => some "302 Found"
  | .C303 => some "303 See Other"
  | .C304 => some "304 Not Modified"
  | .C305 => some "305 Use Proxy"
  | .C306 => some "306 unused"
  | .C307 => some "307 Temporary Redirect"
  | .C308 => some "308 Permanent Redirect"
  | .C400 => some "400 Bad Request"
  | .C401 => some "401 Unauthorized"
  | .C402 => some "402 Payment Required"
  | .C403 => some "403 Forbidden"
  | .C404 => some "404 Not Found"
  | .C405 => some "405 Method Not Allowed"
  | .C406 => some "406 Not Acceptable"
  | .C407 => some "407 Proxy Authentication Required"
  | .C408 => some "408 Request Timeout"
  | .C409 => some "409 Conflict"
  | .C410 => some "410 Gone"
  | .C411 => some "411 Length Required"
  | .C412 => some "412 Precondition Failed"
  | .C413 => some "413 Payload Too Large"
  | .C414 => some "414 URI Too Long"
  | .C415 => some "415 Unsupported Media Type"
  | .C416 => some "416 Range Not Satisfiable"
  | .C417 => some "417 Expectation Failed"
  | .C418 => some "418 I'm a teapot"
  | .C421 => some "421 Misdirected Request"
  | .C422 => some "422 Unprocessable Entity"
  | .C423 => some "423 Locked"
  | .C424 => some "424 Failed Dependency"
  | .C425 => some "425 Too Early"
  | .C426 => some "426 Upgrade Required"
  | .C428 => some "428 Precondition Required"
  | .C429 => some "429 Too Many Requests"
  | .C431 => some "431 Request Header Fields Too Large"
  | .C451 => some "451 Unavailable For Legal Reasons"
  | .C500 => some "500 Internal Server Error"
  | .C501 => some "501 Not Implemented"
  | .C502 => some "502 Bad Gateway"
  | .C503 => some "503 Service Unavailable"
  | .C504 => some "504 Gateway Timeout"
  | .C505 => some "505 HTTP Version Not Supported"
  | .C506 => some "506 Variant Also Negotiates"
  | .C507 => some "507 Insufficient Storage"
  | .C508 => some "508 Loop Detected"
  | .C510 => some "510 Not Extended"
  | .C511 => some "511 Network Authentication Required"
  | .CUknown => some "Unofficial Response Code"
  | _ => none

/-- The `ToolTip` that `UMETA` declares for the enumerator, when it declares
one. -/
def ToolTip : EHttpResponseCode → Option String
  | .C100 =>
      some "This interim response indicates that everything so far is OK and that the client should continue the request, or ignore the response if the request is already finished."
  | .C101 =>
      some "This code is sent in response to an Upgrade request header from the client, and indicates the protocol the server is switching to."
  | .C102 =>
      some "This code indicates that the server has received and is processing the request, but no response is available yet."
  | .C103 =>
      some "This status code is primarily intended to be used with the Link header, letting the user agent start preloading resources while the server prepares a response."
  | .C200 =>
      some "The request has succeeded."
  | .C201 =>
      some "The request has succeeded and a new resource has been created as a result. This is typically the response sent after POST requests, or some PUT requests."
  | .C202 =>
      some "The request has been received but not yet acted upon. It is noncommittal, since there is no way in HTTP to later send an asynchronous response indicating the outcome of the request. It is intended for cases where another process or server handles the request, or for batch processing."
  | .C203 =>
      some "This response code means the returned meta-information is not exactly the same as is available from the origin server, but is collected from a local or a third-party copy. This is mostly used for mirrors or backups of another resource. Except for that specific case, the \"200 OK\" response is preferred to this status."
  | .C204 =>
      some "There is no content to send for this request, but the headers may be useful. The user-agent may update its cached headers for this resource with the new ones."
  | .C205 =>
      some "Tells the user-agent to reset the document which sent this request."
  | .C206 =>
      some "This response code is used when the Range header is sent from the client to request only part of a resource."
  | .C207 =>
      some "Conveys information about multiple resources, for situations where multiple status codes might be appropriate."
  | .C208 =>
      some "Used inside a <dav:propstat> response element to avoid repeatedly enumerating the internal members of multiple bindings to the same collection."
  | .C226 =>
      some "The server has fulfilled a GET request for the resource, and the response is a representation of the result of one or more instance-manipulations applied to the current instance."
  | .C300 =>
      some "The request has more than one possible response. The user-agent or user should choose one of them. (There is no standardized way of choosing one of the responses, but HTML links to the possibilities are recommended so the user can pick.)"
  | .C301 =>
      some "The URL of the requested resource has been changed permanently. The new URL is given in the response."
  | .C302 =>
      some "This response code means that the URI of requested resource has been changed temporarily. Further changes in the URI might be made in the future. Therefore, this same URI should be used by the client in future requests."
  | .C303 =>
      some "The server sent this response to direct the client to get the requested resource at another URI with a GET request."
  | .C304 =>
      some "This is used for caching purposes. It tells the client that the response has not been modified, so the client can continue to use the same cached version of the response."
  | .C305 =>
      some "Defined in a previous version of the HTTP specification to indicate that a requested response must be accessed by a proxy. It has been deprecated due to security concerns regarding in-band configuration of a proxy."
  | .C306 =>
      some "This response code is no longer used; it is just reserved. It was used in a previous version of the HTTP/1.1 specification."
  | .C307 =>
      some "The server sends this response to direct the client to get the requested resource at another URI with same method that was used in the prior request. This has the same semantics as the 302 Found HTTP response code, with the exception that the user agent must not change the HTTP method used: If a POST was used in the first request, a POST must be used in the second request."
  | .C308 =>
      some "This means that the resource is now permanently located at another URI, specified by the Location: HTTP Response header. This has the same semantics as the 301 Moved Permanently HTTP response code, with the exception that the user agent must not change the HTTP method used: If a POST was used in the first request, a POST must be used in the second request."
  | .C400 =>
      some "The server could not understand the request due to invalid syntax."
  | .C401 =>
      some "Although the HTTP standard specifies \"unauthorized\", semantically this response means \"unauthenticated\". That is, the client must authenticate itself to get the requested response."
  | .C402 =>
      some "This response code is reserved for future use. The initial aim for creating this code was using it for digital payment systems, however this status code is used very rarely and no standard convention exists."
  | .C403 =>
      some "The client does not have access rights to the content; that is, it is unauthorized, so the server is refusing to give the requested resource. Unlike 401, the client's identity is known to the server."
  | .C404 =>
      some "The server can not find the requested resource. In the browser, this means the URL is not recognized. In an API, this can also mean that the endpoint is valid but the resource itself does not exist. Servers may also send this response instead of 403 to hide the existence of a resource from an unauthorized client. This response code is probably the most famous one due to its frequent occurrence on the web."
  | .C405 =>
      some "The request method is known by the server but has been disabled and cannot be used. For example, an API may forbid DELETE-ing a resource. The two mandatory methods, GET and HEAD, must never be disabled and should not return this error code."
  | .C406 =>
      some "This response is sent when the web server, after performing server-driven content negotiation, doesn't find any content that conforms to the criteria given by the user agent."
  | .C407 =>
      some "This is similar to 401 but authentication is needed to be done by a proxy."
  | .C408 =>
      some "This response is sent on an idle connection by some servers, even without any previous request by the client. It means that the server would like to shut down this unused connection. This response is used much more since some browsers, like Chrome, Firefox 27+, or IE9, use HTTP pre-connection mechanisms to speed up surfing. Also note that some servers merely shut down the connection without sending this message."
  | .C409 =>
      some "This response is sent when a request conflicts with the current state of the server."
  | .C410 =>
      some "This response is sent when the requested content has been permanently deleted from server, with no forwarding address. Clients are expected to remove their caches and links to the resource. The HTTP specification intends this status code to be used for \"limited - time, promotional services\". APIs should not feel compelled to indicate resources that have been deleted with this status code."
  | .C411 =>
      some "Server rejected the request because the Content-Length header field is not defined and the server requires it."
  | .C412 =>
      some "The client has indicated preconditions in its headers which the server does not meet."
  | .C413 =>
      some "Request entity is larger than limits defined by server; the server might close the connection or return an Retry-After header field."
  | .C414 =>
      some "The URI requested by the client is longer than the server is willing to interpret."
  | .C415 =>
      some "The media format of the requested data is not supported by the server, so the server is rejecting the request."
  | .C416 =>
      some "The range specified by the Range header field in the request can't be fulfilled; it's possible that the range is outside the size of the target URI's data."
  | .C417 =>
      some "This response code means the expectation indicated by the Expect request header field can't be met by the server."
  | .C418 =>
      some "The server refuses the attempt to brew coffee with a teapot. Unofficial code rarely used."
  | .C421 =>
      some "The request was directed at a server that is not able to produce a response. This can be sent by a server that is not configured to produce responses for the combination of scheme and authority that are included in the request URI."
  | .C422 =>
      some "The request was well-formed but was unable to be followed due to semantic errors."
  | .C423 =>
      some "The resource that is being accessed is locked."
  | .C424 =>
      some "The request failed due to failure of a previous request."
  | .C425 =>
      some "Indicates that the server is unwilling to risk processing a request that might be replayed."
  | .C426 =>
      some "The server refuses to perform the request using the current protocol but might be willing to do so after the client upgrades to a different protocol. The server sends an Upgrade header in a 426 response to indicate the required protocol(s)."
  | .C428 =>
      some "The origin server requires the request to be conditional. This response is intended to prevent the 'lost update' problem, where a client GETs a resource's state, modifies it, and PUTs it back to the server, when meanwhile a third party has modified the state on the server, leading to a conflict."
  | .C429 =>
      some "The user has sent too many requests in a given amount of time (\"rate limiting\")."
  | .C431 =>
      some "The server is unwilling to process the request because its header fields are too large. The request may be resubmitted after reducing the size of the request header fields."
  | .C451 =>
      some "The user-agent requested a resource that cannot legally be provided, such as a web page censored by a government."
  | .C500 =>
      some "The server has encountered a situation it doesn't know how to handle."
  | .C501 =>
      some "The request method is not supported by the server and cannot be handled. The only methods that servers are required to support (and therefore that must not return this code) are GET and HEAD."
  | .C502 =>
      some "This error response means that the server, while working as a gateway to get a response needed to handle the request, got an invalid response."
  | .C503 =>
      some "The server is not ready to handle the request. Common causes are a server that is down for maintenance or that is overloaded. Note that together with this response, a user-friendly page explaining the problem should be sent. This responses should be used for temporary conditions and the Retry-After: HTTP header should, if possible, contain the estimated time before the recovery of the service. The webmaster must also take care about the caching-related headers that are sent along with this response, as these temporary condition responses should usually not be cached."
  | .C504 =>
      some "This error response is given when the server is acting as a gateway and cannot get a response in time."
  | .C505 =>
      some "The HTTP version used in the request is not supported by the server."
  | .C506 =>
      some "The server has an internal configuration error: the chosen variant resource is configured to engage in transparent content negotiation itself, and is therefore not a proper end point in the negotiation process."
  | .C507 =>
      some "The method could not be performed on the resource because the server is unable to store the representation needed to successfully complete the request."
  | .C508 =>
      some "The server detected an infinite loop while processing the request."
  | .C510 =>
      some "Further extensions to the request are required for the server to fulfil it."
  | .C511 =>
      some "The client needs to authenticate to gain network access."
  | _ => none

/-- The number in the identifier of an enumerator `C<code>`; the section markers
and `CUknown` have none. -/
def Code : EHttpResponseCode → Option Int
  | .C100 => some 100
  | .C101 => some 101
  | .C102 => some 102
  | .C103 => some 103
  | .C200 => some 200
  | .C201 => some 201
  | .C202 => some 202
  | .C203 => some 203
  | .C204 => some 204
  | .C205 => some 205
  | .C206 => some 206
  | .C207 => some 207
  | .C208 => some 208
  | .C226 => some 226
  | .C300 => some 300
  | .C301 => some 301
  | .C302 => some 302
  | .C303 => some 303
  | .C304 => some 304
  | .C305 => some 305
  | .C306 => some 306
  | .C307 => some 307
  | .C308 => some 308
  | .C400 => some 400
  | .C401 => some 401
  | .C402 => some 402
  | .C403 => some 403
  | .C404 => some 404
  | .C405 => some 405
  | .C406 => some 406
  | .C407 => some 407
  | .C408 => some 408
  | .C409 => some 409
  | .C410 => some 410
  | .C411 => some 411
  | .C412 => some 412
  | .C413 => some 413
  | .C414 => some 414
  | .C415 => some 415
  | .C416 => some 416
  | .C417 => some 417
  | .C418 => some 418
  | .C421 => some 421
  | .C422 => some 422
  | .C423 => some 423
  | .C424 => some 424
  | .C425 => some 425
  | .C426 => some 426
  | .C428 => some 428
  | .C429 => some 429
  | .C431 => some 431
  | .C451 => some 451
  | .C500 => some 500
  | .C501 => some 501
  | .C502 => some 502
  | .C503 => some 503
  | .C504 => some 504
  | .C505 => some 505
  | .C506 => some 506
  | .C507 => some 507
  | .C508 => some 508
  | .C510 => some 510
  | .C511 => some 511
  | _ => none

/-- The official codes: the numbers of the enumerators `C<code>`, in the order of
the header. -/
def OfficialCodes : List Int :=
  Declaration.filterMap fun P => P.1.Code

end EHttpResponseCode

/-- The values of the enumerators of a C++ enumeration: the explicit initialiser
when there is one, otherwise one more than the value before (0 for the
first). -/
def AssignEnumValues {α : Type} : Nat → List (α × Option Nat) → List (α × Nat)
  | _, [] => []
  | _, (E, some V) :: Rest => (E, V) :: AssignEnumValues (V + 1) Rest
  | Next, (E, none) :: Rest => (E, Next) :: AssignEnumValues (Next + 1) Rest

/-- The enumerators of `EHttpResponseCode` with their values. -/
def EHttpResponseCode.Values : List (EHttpResponseCode × Nat) :=
  AssignEnumValues 0 EHttpResponseCode.Declaration

/-- The `uint8` value of an enumerator (`static_cast<uint32>(Code)`). -/
def EHttpResponseCode.toUInt8 (Self : EHttpResponseCode) : Nat :=
  (EHttpResponseCode.Values.lookup Self).getD 0

/-- One enumerator in the reflection data of an enumeration (`UEnum`): its name,
its value and its meta data. -/
structure UEnumEntry where
  Name : String
  Value : Nat
  DisplayName : Option String
  ToolTip : Option String
  deriving DecidableEq, Repr

/-- The reflection data of an enumeration: its enumerators in declaration
order. -/
abbrev UEnum := List UEnumEntry

namespace UEnum

/-- `UEnum::GetIndexByValue`. -/
def GetIndexByValue (Self : UEnum) (Value : Nat) : Option Nat :=
  Self.findIdx? (fun E => E.Value == Value)

/-- `UEnum::GetDisplayNameTextByIndex`: the declared `DisplayName`, the name of
the enumerator when none is declared, empty for an index outside the
enumeration. -/
def GetDisplayNameTextByIndex (Self : UEnum) (Index : Option Nat) : String :=
  match Index.bind (fun I => Self.get? I) with
  | some E => E.DisplayName.getD E.Name
  | none => ""

/-- `UEnum::GetDisplayNameTextByValue`. -/
def GetDisplayNameTextByValue (Self : UEnum) (Value : Nat) : String :=
  Self.GetDisplayNameTextByIndex (Self.GetIndexByValue Value)

/-- `UEnum::GetToolTipTextByIndex`: the declared `ToolTip`, empty when none is
declared or the index is outside the enumeration. -/
def GetToolTipTextByIndex (Self : UEnum) (Index : Nat) : String :=
  match Self.get? Index with
  | some E => E.ToolTip.getD ""
  | none => ""

end UEnum

/-- The reflection data that the header gives for `EHttpResponseCode`, which
`GetEHttpResponseCodeEnumPointer` finds when the lookup data is available. -/
def EHttpResponseCode.StaticEnum : UEnum :=
  EHttpResponseCode.Values.map fun P =>
    { Name := P.1.Name, Value := P.2, DisplayName := P.1.DisplayName, ToolTip := P.1.ToolTip }

/-- The `case` labels of the `switch` in `HttpResponseCodeToEnum`, each with the
enumerator that its `return` gives (the macro `C(Code)` is
`case Code: return EHttpResponseCode::C ## Code;`). -/
def HttpResponseCodeToEnum.Cases : List (Int × EHttpResponseCode) :=
  [(100, EHttpResponseCode.C100), (101, EHttpResponseCode.C101), (102, EHttpResponseCode.C102),
   (103, EHttpResponseCode.C103), (200, EHttpResponseCode.C200), (201, EHttpResponseCode.C201),
   (202, EHttpResponseCode.C202), (203, EHttpResponseCode.C203), (204, EHttpResponseCode.C204),
   (205, EHttpResponseCode.C205), (206, EHttpResponseCode.C206), (207, EHttpResponseCode.C207),
   (208, EHttpResponseCode.C208), (226, EHttpResponseCode.C226), (300, EHttpResponseCode.C300),
   (301, EHttpResponseCode.C301), (302, EHttpResponseCode.C302), (303, EHttpResponseCode.C303),
   (304, EHttpResponseCode.C304), (305, EHttpResponseCode.C305), (306, EHttpResponseCode.C306),
   (307, EHttpResponseCode.C307), (308, EHttpResponseCode.C308), (400, EHttpResponseCode.C400),
   (401, EHttpResponseCode.C401), (402, EHttpResponseCode.C402), (403, EHttpResponseCode.C403),
   (404, EHttpResponseCode.C404), (405, EHttpResponseCode.C405), (406, EHttpResponseCode.C406),
   (407, EHttpResponseCode.C407), (408, EHttpResponseCode.C408), (409, EHttpResponseCode.C409),
   (410, EHttpResponseCode.C410), (411, EHttpResponseCode.C411), (412, EHttpResponseCode.C412),
   (413, EHttpResponseCode.C413), (414, EHttpResponseCode.C414), (415, EHttpResponseCode.C415),
   (416, EHttpResponseCode.C416), (417, EHttpResponseCode.C417), (418, EHttpResponseCode.C418),
   (421, EHttpResponseCode.C421), (422, EHttpResponseCode.C422), (423, EHttpResponseCode.C423),
   (424, EHttpResponseCode.C424), (425, EHttpResponseCode.C425), (426, EHttpResponseCode.C426),
   (428, EHttpResponseCode.C428), (429, EHttpResponseCode.C429), (431, EHttpResponseCode.C431),
   (451, EHttpResponseCode.C451), (500, EHttpResponseCode.C500), (501, EHttpResponseCode.C501),
   (502, EHttpResponseCode.C502), (503, EHttpResponseCode.C503), (504, EHttpResponseCode.C504),
   (505, EHttpResponseCode.C505), (506, EHttpResponseCode.C506), (507, EHttpResponseCode.C507),
   (508, EHttpResponseCode.C508), (510, EHttpResponseCode.C510), (511, EHttpResponseCode.C511)]

/-- `UBlueprintHttpLibrary::HttpResponseCodeToEnum`: the `switch` returns the
enumerator of the matching `case`, and `CUknown` by `default`. -/
def HttpResponseCodeToEnum (ResponseCode : Int) : EHttpResponseCode :=
  match HttpResponseCodeToEnum.Cases.lookup ResponseCode with
  | some Code => Code
  | none => .CUknown

/-- `UBlueprintHttpLibrary::HttpResponseCodeToString`; `HttpResponseCodeEnum` is
what `GetEHttpResponseCodeEnumPointer` returns. -/
def HttpResponseCodeToString (HttpResponseCodeEnum : Option UEnum) (ResponseCode : Int) :
    String :=
  match HttpResponseCodeEnum with
  | none => "Failed to find lookup data."
  | some Enum =>
      let Code := HttpResponseCodeToEnum ResponseCode
      if Code = .CUknown then toString ResponseCode ++ " Unofficial Response Code"
      else Enum.GetDisplayNameTextByValue Code.toUInt8

/-- `UBlueprintHttpLibrary::HttpResponseCodeToDescriptionString`; `WITH_EDITOR`
is the build flag. -/
def HttpResponseCodeToDescriptionString (WITH_EDITOR : Bool)
    (HttpResponseCodeEnum : Option UEnum) (ResponseCode : Int) : String :=
  if WITH_EDITOR then
    match HttpResponseCodeEnum with
    | none => "Failed to find lookup data."
    | some Enum =>
        let Code := HttpResponseCodeToEnum ResponseCode
        if Code = .CUknown then toString ResponseCode ++ " is an unofficial response code."
        else Enum.GetToolTipTextByIndex Code.toUInt8
  else ""

/-- The `DisplayName` that `UMETA` declares for an `EHttpMimeType` enumerator
(`HttpRequest.h`). -/
def EHttpMimeType.DisplayName : EHttpMimeType → String
  | .url => "application/x-www-form-urlencoded"
  | .form => "multipart/form-data"
  | .txt => "text/plain"
  | .html => "text/html"
  | .aac => "audio/aac"
  | .arc => "application/x-freearc"
  | .avi => "video/x-msvideo"
  | .bin => "application/octet-stream"
  | .bmp => "image/bmp"
  | .css => "text/css"
  | .csv => "text/csv"
  | .doc => "application/msword"
  | .gz => "application/gzip"
  | .gif => "image/gif"
  | .jpg => "image/jpeg"
  | .js => "text/javascript"
  | .json => "application/json"
  | .mp3 => "audio/mpeg"
  | .mpkg => "application/vnd.apple.installer+xml"
  | .png => "image/png"
  | .pdf => "application/pdf"
  | .php => "application/x-httpd-php"
  | .rar => "application/vnd.rar"
  | .tar => "application/x-tar"
  | .xml => "application/xml"
  | .zip => "application/zip"
  | ._7z => "application/x-7z-compressed"


/-! ## `UProcessHttpRequestProxy` -/

/-- `UProcessHttpRequestProxy`; `bReadyToDestroy` records `SetReadyToDestroy`. -/
structure UProcessHttpRequestProxy where
  RequestWrapper : Option UHttpRequest
  BytesSent : Int
  BytesReceived : Int
  bReadyToDestroy : Bool
  deriving DecidableEq, Repr

/-- What a handler of `UProcessHttpRequestProxy` yields: a fault, or the new state
and the events broadcast. -/
abbrev ProcessResult :=
  Except Fault (UProcessHttpRequestProxy × List (FOnRequestEvent String))

namespace UProcessHttpRequestProxy

/-- Constructor of `UProcessHttpRequestProxy`. -/
def New : UProcessHttpRequestProxy :=
  { RequestWrapper := none, BytesSent := 0, BytesReceived := 0, bReadyToDestroy := false }

/-- `UProcessHttpRequestProxy::InlineProcessRequest`. -/
def InlineProcessRequest (Request : Option UHttpRequest) : UProcessHttpRequestProxy :=
  let Proxy := New
  match Request with
  | some R => { Proxy with RequestWrapper := some R }
  | none => { Proxy with bReadyToDestroy := true }

/-- `UProcessHttpRequestProxy::Activate`, whose body is empty. -/
def Activate (Self : UProcessHttpRequestProxy) :
    UProcessHttpRequestProxy × List (FOnRequestEvent String) :=
  (Self, [])

/-- `UProcessHttpRequestProxy::OnTickInternal`. -/
def OnTickInternal (Self : UProcessHttpRequestProxy) (Request : Option UHttpRequest)
    (_InBytesSent _InBytesReceived : Int) : ProcessResult :=
  match Request with
  | none => .error .NullDereference
  | some Req =>
      .ok (Self, [⟨.OnResponse, 100, [], "", "", Req.GetElapsedTime, Req.GetStatus,
        Self.BytesSent, Self.BytesReceived⟩])

/-- `UProcessHttpRequestProxy::OnCompleteInternal`. -/
def OnCompleteInternal (Self : UProcessHttpRequestProxy) (Request : Option UHttpRequest)
    (Response : Option UHttpResponse) (bConnectedSuccessfully : Bool) : ProcessResult :=
  match Response, Request with
  | some R, some Req =>
      let Delegate : ERequestDelegate :=
        if bConnectedSuccessfully then .OnResponse else .OnError
      .ok (Self, [⟨Delegate, R.GetResponseCode, R.GetAllHeaders, R.GetContentType,
        R.GetContentAsString, Req.GetElapsedTime, Req.GetStatus, Self.BytesSent,
        Self.BytesReceived⟩])
  | _, _ => .error .NullDereference

end UProcessHttpRequestProxy

/-- A callback of the transport on the request object of a `UHttpRequest`
(`OnProcessRequestComplete`, `OnRequestProgress`, `OnHeaderReceived`). -/
inductive RawCallback where
  | ProcessRequestComplete (RawResponse : Option IHttpResponse) (bConnectedSuccessfully : Bool)
  | RequestProgress (BytesSent BytesReceived : Int)
  | HeaderReceived (HeaderName HeaderValue : String)
  deriving DecidableEq, Repr

/-- What a `UProcessHttpRequestProxy` does when the transport calls back on
`Request`: `OnRequestCompleteInternal`, `OnRequestProgressInternal` and
`OnHeaderReceivedInternal` of `UHttpRequest` broadcast the delegate of the
request, which invokes the handlers of the proxy that are bound to it. -/
def UProcessHttpRequestProxy.Receive (Self : UProcessHttpRequestProxy) (Request : UHttpRequest) :
    RawCallback → ProcessResult
  | .ProcessRequestComplete RawResponse bConnectedSuccessfully =>
      if EBoundFunction.UProcessHttpRequestProxy_OnCompleteInternal ∈ Request.OnRequestComplete
      then Self.OnCompleteInternal (some Request)
        (some (UHttpRequest.CreateResponse Request.Request RawResponse)) bConnectedSuccessfully
      else .ok (Self, [])
  | .RequestProgress BytesSent BytesReceived =>
      if EBoundFunction.UProcessHttpRequestProxy_OnTickInternal ∈ Request.OnRequestProgress
      then Self.OnTickInternal (some Request) BytesSent BytesReceived
      else .ok (Self, [])
  | .HeaderReceived _ _ => .ok (Self, [])

/-- Keys of a map are pairwise different (`FString` keys, compared without
regard to case). -/
def TMap.KeysDistinct : TMap String String → Bool
  | [] => true
  | (K, _) :: Rest =>
      Rest.all (fun P => !FString.EqualsIgnoreCase K P.1) && TMap.KeysDistinct Rest

/-- The request as it is when the transport reports the status `Status` for it. -/
def UHttpRequest.WithStatus (Self : UHttpRequest) (Status : EBlueprintHttpRequestStatus) :
    UHttpRequest :=
  { Self with Request := { Self.Request with Status := Status } }

/-! ## Sample values -/

/-- A transport response with the given status code and nothing else. -/
def SampleResponse (Code : Int) : UHttpResponse :=
  { RequestDuration := 0,
    Response := some { ResponseCode := Code, AllHeaders := [], ContentType := "",
                       Content := [], ContentAsString := "", ContentLength := 0, URL := "" } }

/-- A download proxy as `HttpDownloadFile` makes it for a plain GET. -/
def SampleDownload : UHttpDownloadFileProxy :=
  UHttpDownloadFileProxy.HttpDownloadFile "http://x/y" [] .GET .txt "" [] "out.bin"

/-! ## Helper lemmas -/

theorem UHttpResponse.GetAllHeaders_fold (Hs : List String) (Acc : TMap String String) :
    Hs.foldl (fun OutHeaders Header =>
        match FString.Split Header ": " none none with
        | (_, some K, some V) => TMap.Emplace OutHeaders K V
        | _ => OutHeaders) Acc = Acc := by
  induction Hs generalizing Acc with
  | nil => rfl
  | cons H T ih =>
      simp only [List.foldl_cons]
      have hS : ∀ P : Bool × Option String × Option String,
          P = FString.Split H ": " none none → P.2.1 = none := by
        intro P hP
        subst hP
        unfold FString.Split
        cases FString.Find H.toList ": ".toList <;> rfl
      have h1 := hS _ rfl
      rcases hP : FString.Split H ": " none none with ⟨B, L, R⟩
      rw [hP] at h1
      simp only at h1
      subst h1
      exact ih Acc

theorem UHttpResponse.GetAllHeaders_eq_nil (R : UHttpResponse) : R.GetAllHeaders = [] := by
  unfold UHttpResponse.GetAllHeaders
  cases R.Response with
  | none => rfl
  | some Resp => exact UHttpResponse.GetAllHeaders_fold Resp.AllHeaders []

theorem intercalate_go_append (X Acc S : String) (As : List String) :
    String.intercalate.go (X ++ Acc) S As = X ++ String.intercalate.go Acc S As := by
  induction As generalizing Acc with
  | nil => rfl
  | cons A T ih =>
      simp only [String.intercalate.go]
      rw [String.append_assoc, String.append_assoc, ih, String.append_assoc]

theorem AddParametersToUrl.Loop_eq (N : Int) (Ps : List (String × String)) :
    ∀ (P : String × String) (InUrl : String) (I : Int), I + (Ps.length + 1) = N →
      AddParametersToUrl.Loop N InUrl I (P :: Ps) =
        String.intercalate.go (InUrl ++ AddParametersToUrl.Pair P) "&"
          (Ps.map AddParametersToUrl.Pair) := by
  induction Ps with
  | nil =>
      intro P InUrl I h
      obtain ⟨K, V⟩ := P
      have hI : I = N - 1 := by simp at h; omega
      simp [AddParametersToUrl.Loop, AddParametersToUrl.Pair, String.intercalate.go, hI]
  | cons Q Qs ih =>
      intro P InUrl I h
      obtain ⟨K, V⟩ := P
      have hI : I ≠ N - 1 := by simp at h; omega
      have h2 : (I + 1) + ((Qs.length : Int) + 1) = N := by simp at h; omega
      rw [AddParametersToUrl.Loop]
      simp only [hI, ne_eq, not_false_eq_true, if_true]
      rw [ih Q _ (I + 1) h2]
      simp [String.intercalate.go, AddParametersToUrl.Pair, String.append_assoc]

theorem NothingAfterFirst_of_length_le_one {α : Type} (P : α → Bool) (Xs : List α)
    (h : Xs.length ≤ 1) : NothingAfterFirst P Xs = true := by
  match Xs, h with
  | [], _ => rfl
  | [X], _ => by_cases hP : P X = true <;> simp [NothingAfterFirst, hP]
  | _ :: _ :: _, h => simp at h

theorem NothingAfterFirst_append_of_none {α : Type} (P : α → Bool) (Xs Ys : List α)
    (hX : ∀ X ∈ Xs, P X = false) (hY : NothingAfterFirst P Ys = true) :
    NothingAfterFirst P (Xs ++ Ys) = true := by
  induction Xs with
  | nil => simpa using hY
  | cons X T ih =>
      have hPX : P X = false := hX X (List.mem_cons_self _ _)
      simp only [List.cons_append, NothingAfterFirst, hPX]
      exact ih (fun Z hZ => hX Z (List.mem_cons_of_mem _ hZ))

theorem UHttpDownloadFileProxy.OnRequestCompleted_length (FS : FileSystem)
    (Self : UHttpDownloadFileProxy) (Response : Option UHttpResponse) (b : Bool) :
    (Self.OnRequestCompleted FS Response b).2.length = 1 := by
  unfold UHttpDownloadFileProxy.OnRequestCompleted
  cases b
  · simp
  · cases Response with
    | none => simp
    | some R =>
        by_cases h : R.GetResponseCode < 400
        · cases hS : FS (R.GetContent []) Self.SaveLocation <;> simp [h, hS]
        · simp [h]

theorem UHttpDownloadFileProxy.Run_download_nothing_after_terminal (FS : FileSystem)
    (Cbs : List DownloadCallback) :
    ∀ Self : UHttpDownloadFileProxy,
      NothingAfterFirst DownloadCallback.IsCompletion Cbs = true →
      NothingAfterFirst FOnFileDownloadedEvent.IsTerminal (Self.Run FS Cbs).2 = true := by
  induction Cbs with
  | nil => intro Self _; rfl
  | cons Cb Rest ih =>
      intro Self h
      cases Cb with
      | RequestCompleted Response b =>
          simp only [NothingAfterFirst, DownloadCallback.IsCompletion, if_true,
            List.isEmpty_iff] at h
          subst h
          apply NothingAfterFirst_of_length_le_one
          simp [UHttpDownloadFileProxy.Run, UHttpDownloadFileProxy.Dispatch,
            UHttpDownloadFileProxy.OnRequestCompleted_length]
      | RequestTick BytesSent BytesReceived =>
          simp only [NothingAfterFirst, DownloadCallback.IsCompletion] at h
          simp only [UHttpDownloadFileProxy.Run, UHttpDownloadFileProxy.Dispatch]
          apply NothingAfterFirst_append_of_none
          · intro X hX
            simp only [UHttpDownloadFileProxy.OnRequestTick, List.mem_singleton] at hX
            subst hX
            rfl
          · exact ih _ (by simpa using h)
      | HeadersReceived HeaderName NewHeaderValue =>
          simp only [NothingAfterFirst, DownloadCallback.IsCompletion] at h
          simp only [UHttpDownloadFileProxy.Run, UHttpDownloadFileProxy.Dispatch]
          apply NothingAfterFirst_append_of_none
          · intro X hX
            unfold UHttpDownloadFileProxy.OnHeadersReceived at hX
            split at hX <;> simp at hX
          · exact ih _ (by simpa using h)

theorem USendHttpRequestProxyBase.Run_send_nothing_after_terminal {C : Type}
    (Class : SendProxyClass C)
    (hTick : ∀ Self R, Class.OnTickInternal Self = .ok R → ∀ E ∈ R.2, E.IsTerminal = false)
    (hSuccess : ∀ Self Response R, Class.OnSuccessInternal Self Response = .ok R →
      R.2.length ≤ 1)
    (hError : ∀ Self Response R, Class.OnErrorInternal Self Response = .ok R →
      R.2.length ≤ 1)
    (Cbs : List SendCallback) :
    ∀ Self : USendHttpRequestProxyBase,
      NothingAfterFirst SendCallback.IsCompletion Cbs = true →
      NothingAfterFirst FOnRequestEvent.IsTerminal
        (USendHttpRequestProxyBase.Run Class Self Cbs).1 = true := by
  induction Cbs with
  | nil => intro Self _; rfl
  | cons Cb Rest ih =>
      intro Self h
      cases Cb with
      | RequestProgress Request BytesSent BytesReceived =>
          simp only [NothingAfterFirst, SendCallback.IsCompletion] at h
          simp only [USendHttpRequestProxyBase.Run, USendHttpRequestProxyBase.Dispatch,
            USendHttpRequestProxyBase._OnTickInternal]
          cases hT : Class.OnTickInternal
              { Self with RequestWrapper := Request, BytesSent := BytesSent,
                          BytesReceived := BytesReceived } with
          | error F => rfl
          | ok R =>
              obtain ⟨Self2, Events⟩ := R
              simp only
              apply NothingAfterFirst_append_of_none
              · exact hTick _ _ hT
              · exact ih _ (by simpa using h)
      | RequestComplete Request Response b =>
          simp only [NothingAfterFirst, SendCallback.IsCompletion, if_true,
            List.isEmpty_iff] at h
          subst h
          simp only [USendHttpRequestProxyBase.Run, USendHttpRequestProxyBase.Dispatch,
            USendHttpRequestProxyBase._OnCompleteInternal]
          cases b with
          | true =>
              simp only [if_true]
              cases hR : Class.OnSuccessInternal { Self with RequestWrapper := Request }
                  Response with
              | error F => rfl
              | ok R =>
                  obtain ⟨Self2, Events⟩ := R
                  simp only [List.append_nil]
                  exact NothingAfterFirst_of_length_le_one _ _ (hSuccess _ _ _ hR)
          | false =>
              simp only [Bool.false_eq_true, if_false]
              cases hR : Class.OnErrorInternal { Self with RequestWrapper := Request }
                  Response with
              | error F => rfl
              | ok R =>
                  obtain ⟨Self2, Events⟩ := R
                  simp only [List.append_nil]
                  exact NothingAfterFirst_of_length_le_one _ _ (hError _ _ _ hR)

theorem UHttpDownloadFileProxy.Run_without_content_length (FS : FileSystem)
    (Cbs : List DownloadCallback) :
    ∀ Self : UHttpDownloadFileProxy, Self.ContentLength = 0 →
      (∀ Cb ∈ Cbs, Cb.IsTickOrOtherHeader = true) →
      (Self.Run FS Cbs).2 = Cbs.filterMap DownloadCallback.ProgressWithoutLength := by
  induction Cbs with
  | nil => intro Self _ _; rfl
  | cons Cb Rest ih =>
      intro Self h0 hCbs
      have hCb := hCbs Cb (List.mem_cons_self _ _)
      have hRest : ∀ Cb2 ∈ Rest, Cb2.IsTickOrOtherHeader = true :=
        fun Cb2 h2 => hCbs Cb2 (List.mem_cons_of_mem _ h2)
      cases Cb with
      | RequestCompleted Response b => simp [DownloadCallback.IsTickOrOtherHeader] at hCb
      | RequestTick BytesSent BytesReceived =>
          simp only [UHttpDownloadFileProxy.Run, UHttpDownloadFileProxy.Dispatch,
            UHttpDownloadFileProxy.OnRequestTick, UHttpDownloadFileProxy.GetPercents,
            List.filterMap_cons, DownloadCallback.ProgressWithoutLength]
          rw [ih { Self with Downloaded := BytesReceived } h0 hRest]
          simp [h0]
      | HeadersReceived HeaderName NewHeaderValue =>
          simp only [DownloadCallback.IsTickOrOtherHeader, Bool.not_eq_true'] at hCb
          simp only [UHttpDownloadFileProxy.Run, UHttpDownloadFileProxy.Dispatch,
            UHttpDownloadFileProxy.OnHeadersReceived, hCb, Bool.false_eq_true, if_false,
            List.filterMap_cons, DownloadCallback.ProgressWithoutLength, List.nil_append]
          exact ih _ h0 hRest

theorem UHttpRequest.ProcessRequest_flag (T : Transport) (R : UHttpRequest) :
    (R.ProcessRequest T).1 = T (R.ProcessRequest T).2.Request := rfl

theorem FString.EqualsIgnoreCase_iff (A B : String) :
    FString.EqualsIgnoreCase A B = true ↔
      A.toList.map Char.toLower = B.toList.map Char.toLower := by
  unfold FString.EqualsIgnoreCase
  exact beq_iff_eq

theorem FString.EqualsIgnoreCase_false_iff (A B : String) :
    FString.EqualsIgnoreCase A B = false ↔
      A.toList.map Char.toLower ≠ B.toList.map Char.toLower := by
  rw [← Bool.not_eq_true, FString.EqualsIgnoreCase_iff]

theorem TMap.find_Emplace_of_equal (H : TMap String String) (K V N : String)
    (hKN : FString.EqualsIgnoreCase K N = true) :
    (TMap.Emplace H K V).find? (fun P => FString.EqualsIgnoreCase P.1 N) = some (K, V) := by
  induction H with
  | nil => simp [TMap.Emplace, hKN]
  | cons P Rest ih =>
      obtain ⟨K2, V2⟩ := P
      unfold TMap.Emplace
      by_cases h : FString.EqualsIgnoreCase K2 K = true
      · simp [h, hKN]
      · have h2 : FString.EqualsIgnoreCase K2 N = false := by
          rw [Bool.not_eq_true] at h
          rw [FString.EqualsIgnoreCase_false_iff] at h ⊢
          rw [FString.EqualsIgnoreCase_iff] at hKN
          rw [← hKN]
          exact h
        simp only [h, Bool.false_eq_true, if_false, List.find?_cons, h2]
        exact ih

theorem TMap.find_Emplace_of_other (H : TMap String String) (K V N : String)
    (hKN : FString.EqualsIgnoreCase K N = false) :
    (TMap.Emplace H K V).find? (fun P => FString.EqualsIgnoreCase P.1 N) =
      H.find? (fun P => FString.EqualsIgnoreCase P.1 N) := by
  induction H with
  | nil => simp [TMap.Emplace, hKN]
  | cons P Rest ih =>
      obtain ⟨K2, V2⟩ := P
      unfold TMap.Emplace
      by_cases h : FString.EqualsIgnoreCase K2 K = true
      · have h2 : FString.EqualsIgnoreCase K2 N = false := by
          rw [FString.EqualsIgnoreCase_false_iff] at hKN ⊢
          rw [FString.EqualsIgnoreCase_iff] at h
          rw [h]
          exact hKN
        simp [h, hKN, h2]
      · simp only [h, Bool.false_eq_true, if_false, List.find?_cons]
        rw [ih]

theorem IHttpRequest.GetHeader_SetHeader_of_equal (R : IHttpRequest) (K V N : String)
    (hKN : FString.EqualsIgnoreCase K N = true) : (R.SetHeader K V).GetHeader N = V := by
  simp [IHttpRequest.GetHeader, IHttpRequest.SetHeader, TMap.find_Emplace_of_equal _ _ _ _ hKN]

theorem IHttpRequest.GetHeader_SetHeader_of_other (R : IHttpRequest) (K V N : String)
    (hKN : FString.EqualsIgnoreCase K N = false) :
    (R.SetHeader K V).GetHeader N = R.GetHeader N := by
  simp [IHttpRequest.GetHeader, IHttpRequest.SetHeader, TMap.find_Emplace_of_other _ _ _ _ hKN]

theorem CreateMimeType_not_empty (T : EHttpMimeType) : (CreateMimeType T).isEmpty = false := by
  cases T <;> decide

theorem IHttpRequest.GetContentType_AppendToHeader (R : IHttpRequest) (V : String)
    (hV : V.isEmpty = false) :
    (R.AppendToHeader "Content-Type" V).GetContentType =
      (if R.GetContentType.isEmpty then V else R.GetContentType ++ ", " ++ V) := by
  have hName : ("Content-Type" : String).isEmpty = false := by decide
  unfold IHttpRequest.AppendToHeader IHttpRequest.GetContentType
  simp only [hName, hV, Bool.or_self, Bool.false_eq_true, if_false]
  rw [IHttpRequest.GetHeader_SetHeader_of_equal _ _ _ _ (by decide)]

theorem UHttpRequest.SetMimeType_of_empty (Self : UHttpRequest) (T : EHttpMimeType)
    (h : Self.Request.GetContentType = "") :
    Self.SetMimeType T = Self.SetHeader "Content-Type" (CreateMimeType T) := by
  have hName : ("Content-Type" : String).isEmpty = false := by decide
  have hPrev : Self.Request.GetHeader "Content-Type" = "" := h
  have hEmpty : ("" : String).isEmpty = true := by decide
  simp [UHttpRequest.SetMimeType, UHttpRequest.SetHeader, IHttpRequest.AppendToHeader, hName,
    CreateMimeType_not_empty, hPrev, hEmpty]

theorem UHttpRequest.SetHeader_fold_of_other (N : String) (Hs : TMap String String) :
    ∀ R : UHttpRequest, (∀ P ∈ Hs, FString.EqualsIgnoreCase P.1 N = false) →
      (Hs.foldl (fun R P => R.SetHeader P.1 P.2) R).Request.GetHeader N =
        R.Request.GetHeader N := by
  induction Hs with
  | nil => intro R _; rfl
  | cons P Rest ih =>
      intro R h
      simp only [List.foldl_cons]
      rw [ih _ (fun Q hQ => h Q (List.mem_cons_of_mem _ hQ))]
      exact IHttpRequest.GetHeader_SetHeader_of_other _ _ _ _ (h P (List.mem_cons_self _ _))

theorem UHttpRequest.SetHeader_fold_of_member (N K V : String) (Hs : TMap String String) :
    ∀ R : UHttpRequest, TMap.KeysDistinct Hs = true → (K, V) ∈ Hs →
      FString.EqualsIgnoreCase K N = true →
      (Hs.foldl (fun R P => R.SetHeader P.1 P.2) R).Request.GetHeader N = V := by
  induction Hs with
  | nil => intro R _ hMem; simp at hMem
  | cons P Rest ih =>
      intro R hDistinct hMem hKN
      obtain ⟨K2, V2⟩ := P
      simp only [TMap.KeysDistinct, Bool.and_eq_true, List.all_eq_true, Bool.not_eq_true'] at hDistinct
      simp only [List.foldl_cons]
      rcases List.mem_cons.mp hMem with hHead | hRest
      · have hK : K = K2 := congrArg Prod.fst hHead
        have hV : V = V2 := congrArg Prod.snd hHead
        subst hK hV
        rw [UHttpRequest.SetHeader_fold_of_other]
        · exact IHttpRequest.GetHeader_SetHeader_of_equal _ _ _ _ hKN
        · intro Q hQ
          have h1 := hDistinct.1 Q hQ
          rw [FString.EqualsIgnoreCase_false_iff] at h1 ⊢
          rw [FString.EqualsIgnoreCase_iff] at hKN
          rw [← hKN]
          exact fun h => h1 h.symm
      · exact ih _ hDistinct.2 hRest hKN

theorem IHttpRequest.GetHeader_AppendToHeader (R : IHttpRequest) (K V : String)
    (hK : K.isEmpty = false) (hV : V.isEmpty = false) :
    (R.AppendToHeader K V).GetHeader K =
      (if (R.GetHeader K).isEmpty then V else R.GetHeader K ++ ", " ++ V) := by
  unfold IHttpRequest.AppendToHeader
  simp only [hK, hV, Bool.or_self, Bool.false_eq_true, if_false]
  rw [IHttpRequest.GetHeader_SetHeader_of_equal _ _ _ _
    ((FString.EqualsIgnoreCase_iff K K).mpr rfl)]

theorem UHttpRequest.ProcessRequest_content_type_after (Self : UHttpRequest) (T : Transport) :
    (Self.ProcessRequest T).2.Request.GetContentType =
      (if Self.Request.GetContentType = "" then "text/plain"
       else Self.Request.GetContentType) := by
  have hTxt : CreateMimeType .txt = "text/plain" := by decide
  by_cases h : Self.Request.GetContentType = ""
  · simp only [UHttpRequest.ProcessRequest, h, beq_self_eq_true, if_true]
    rw [UHttpRequest.SetMimeType_of_empty Self .txt h, hTxt]
    exact IHttpRequest.GetHeader_SetHeader_of_equal _ _ _ _ (by decide)
  · simp [UHttpRequest.ProcessRequest, h]

theorem HttpResponseCodeToEnum.Cases_sound :
    ∀ P ∈ HttpResponseCodeToEnum.Cases, P.2.Code = some P.1 ∧ P.2 ≠ .CUknown := by
  decide

theorem HttpResponseCodeToEnum.Cases_codes :
    HttpResponseCodeToEnum.Cases.map Prod.fst = EHttpResponseCode.OfficialCodes := by
  decide

theorem HttpResponseCodeToEnum_eq_CUknown_iff (ResponseCode : Int) :
    HttpResponseCodeToEnum ResponseCode = .CUknown ↔
      ResponseCode ∉ EHttpResponseCode.OfficialCodes := by
  rw [← HttpResponseCodeToEnum.Cases_codes]
  unfold HttpResponseCodeToEnum
  cases hL : HttpResponseCodeToEnum.Cases.lookup ResponseCode with
  | none =>
      simp only [true_iff]
      rw [List.lookup_eq_none_iff] at hL
      intro hMem
      obtain ⟨P, hP, hEq⟩ := List.mem_map.mp hMem
      have := hL P hP
      simp [hEq] at this
  | some Code =>
      have hMem : (ResponseCode, Code) ∈ HttpResponseCodeToEnum.Cases := by
        have := List.lookup_eq_some_iff.mp hL
        obtain ⟨L1, L2, hEq, _⟩ := this
        rw [hEq]
        simp
      have hSound := HttpResponseCodeToEnum.Cases_sound _ hMem
      constructor
      · intro h
        exact absurd h hSound.2
      · intro h
        exact absurd (List.mem_map.mpr ⟨_, hMem, rfl⟩) h

theorem HttpResponseCodeToEnum_of_Code (E : EHttpResponseCode) (C : Int)
    (h : E.Code = some C) : HttpResponseCodeToEnum C = E := by
  cases E <;> simp [EHttpResponseCode.Code] at h <;> subst h <;> rfl

theorem UHttpRequest.GetAllHeaders_Loop_null (Lines : List String) :
    ∀ Out : TMap String String,
      UHttpRequest.GetAllHeaders.Loop none none Out Lines =
        (if Lines.any (fun L => (FString.Find L.toList ": ".toList).isSome) then
          .error .NullDereference
         else .ok Out) := by
  induction Lines with
  | nil => intro Out; rfl
  | cons L Rest ih =>
      intro Out
      unfold UHttpRequest.GetAllHeaders.Loop FString.Split
      cases hF : FString.Find L.toList ": ".toList with
      | none =>
          simp only [List.any_cons, hF, Option.isSome_none, Bool.false_or]
          exact ih Out
      | some InPos =>
          simp only [List.any_cons, hF, Option.isSome_some, Bool.true_or, if_true, Option.map_none']

theorem StringToVerb_mem (Verb : String) :
    StringToVerb Verb ∈
      [EHttpVerb.GET, EHttpVerb.POST, EHttpVerb.PUT, EHttpVerb.PATCH, EHttpVerb.HEAD,
       EHttpVerb.DELETE] := by
  unfold StringToVerb
  split_ifs <;> decide

theorem EHttpVerb.mem_of_lt (V : EHttpVerb) (h : V.toUInt8 < EHttpVerb.MAX_COUNT.toUInt8) :
    V ∈ [EHttpVerb.GET, EHttpVerb.POST, EHttpVerb.PUT, EHttpVerb.PATCH, EHttpVerb.HEAD,
      EHttpVerb.DELETE] := by
  obtain ⟨⟨N, hN⟩⟩ := V
  have hLt : N < 6 := h
  simp only [List.mem_cons, List.mem_singleton, List.not_mem_nil, or_false]
  interval_cases N
  · exact Or.inl rfl
  · exact Or.inr (Or.inl rfl)
  · exact Or.inr (Or.inr (Or.inl rfl))
  · exact Or.inr (Or.inr (Or.inr (Or.inl rfl)))
  · exact Or.inr (Or.inr (Or.inr (Or.inr (Or.inl rfl))))
  · exact Or.inr (Or.inr (Or.inr (Or.inr (Or.inr rfl))))

theorem UHttpRequest.ConvertEnumVerbToString_of_lt (V : EHttpVerb)
    (h : V.toUInt8 < EHttpVerb.MAX_COUNT.toUInt8) :
    UHttpRequest.ConvertEnumVerbToString V ∈ ["GET", "POST", "PUT", "PATCH", "HEAD", "DELETE"] := by
  have hMem := EHttpVerb.mem_of_lt V h
  simp only [List.mem_cons, List.mem_singleton, List.not_mem_nil, or_false] at hMem
  rcases hMem with rfl | rfl | rfl | rfl | rfl | rfl <;> decide

theorem UHttpRequest.ConvertEnumVerbToString_of_ge (V : EHttpVerb)
    (h : EHttpVerb.MAX_COUNT.toUInt8 ≤ V.toUInt8) :
    UHttpRequest.ConvertEnumVerbToString V = "NONE" := by
  unfold UHttpRequest.ConvertEnumVerbToString
  simp only [ge_iff_le, h, if_true]

theorem USendHttpRequestProxy.Run_text_nothing_after_terminal (Cbs : List SendCallback)
    (Self : USendHttpRequestProxyBase)
    (h : NothingAfterFirst SendCallback.IsCompletion Cbs = true) :
    NothingAfterFirst FOnRequestEvent.IsTerminal
      (USendHttpRequestProxyBase.Run USendHttpRequestProxy.Class Self Cbs).1 = true := by
  refine USendHttpRequestProxyBase.Run_send_nothing_after_terminal _ ?_ ?_ ?_ Cbs Self h
  · intro Self R hR E hE
    simp only [USendHttpRequestProxy.Class, USendHttpRequestProxy.OnTickInternal,
      Except.ok.injEq] at hR
    subst hR
    simp only [List.mem_singleton] at hE
    subst hE
    rfl
  · intro Self Response R hR
    cases Response with
    | none => simp [USendHttpRequestProxy.Class, USendHttpRequestProxy.OnSuccessInternal] at hR
    | some Resp =>
        simp only [USendHttpRequestProxy.Class, USendHttpRequestProxy.OnSuccessInternal,
          Except.ok.injEq] at hR
        subst hR
        simp
  · intro Self Response R hR
    cases Response with
    | none => simp [USendHttpRequestProxy.Class, USendHttpRequestProxy.OnErrorInternal] at hR
    | some Resp =>
        simp only [USendHttpRequestProxy.Class, USendHttpRequestProxy.OnErrorInternal,
          Except.ok.injEq] at hR
        subst hR
        simp

theorem USendBinaryHttpRequestProxy.Run_binary_nothing_after_terminal
    (Cbs : List SendCallback) (Self : USendHttpRequestProxyBase)
    (h : NothingAfterFirst SendCallback.IsCompletion Cbs = true) :
    NothingAfterFirst FOnRequestEvent.IsTerminal
      (USendHttpRequestProxyBase.Run USendBinaryHttpRequestProxy.Class Self Cbs).1 = true := by
  refine USendHttpRequestProxyBase.Run_send_nothing_after_terminal _ ?_ ?_ ?_ Cbs Self h
  · intro Self R hR E hE
    simp only [USendBinaryHttpRequestProxy.Class, USendBinaryHttpRequestProxy.OnTickInternal,
      Except.ok.injEq] at hR
    subst hR
    simp only [List.mem_singleton] at hE
    subst hE
    rfl
  · intro Self Response R hR
    cases Response with
    | none =>
        simp [USendBinaryHttpRequestProxy.Class,
          USendBinaryHttpRequestProxy.OnSuccessInternal] at hR
    | some Resp =>
        simp only [USendBinaryHttpRequestProxy.Class,
          USendBinaryHttpRequestProxy.OnSuccessInternal, Except.ok.injEq] at hR
        subst hR
        simp
  · intro Self Response R hR
    cases Response with
    | none =>
        simp [USendBinaryHttpRequestProxy.Class,
          USendBinaryHttpRequestProxy.OnErrorInternal] at hR
    | some Resp =>
        simp only [USendBinaryHttpRequestProxy.Class,
          USendBinaryHttpRequestProxy.OnErrorInternal, Except.ok.injEq] at hR
        subst hR
        simp

theorem UHttpDownloadFileProxy.Activate_events (T : Transport) (Self : UHttpDownloadFileProxy) :
    (Self.Activate T).2 =
      (if T (Self.Activate T).1.Request.Request then []
       else [⟨.OnFileDownloadError, 0, 0, 0⟩]) := by
  unfold UHttpDownloadFileProxy.Activate
  simp only []
  split
  · rename_i h
    have h2 := h
    rw [UHttpRequest.ProcessRequest_flag] at h2
    simp only [Bool.not_eq_true'] at h2
    simp [h2]
  · rename_i h
    have h2 := h
    rw [UHttpRequest.ProcessRequest_flag] at h2
    simp only [Bool.not_eq_true', Bool.not_eq_false] at h2
    simp [h2]

theorem USendHttpRequestProxyBase.Lifecycle_nothing_after_terminal {C : Type}
    (Class : SendProxyClass C) (T : Transport) (Self : USendHttpRequestProxyBase)
    (Cbs : List SendCallback)
    (hRun : ∀ S : USendHttpRequestProxyBase, NothingAfterFirst FOnRequestEvent.IsTerminal
      (USendHttpRequestProxyBase.Run Class S Cbs).1 = true)
    (hError : ∀ S : USendHttpRequestProxyBase, Class.OnErrorInternal S none =
      .error .NullDereference) :
    NothingAfterFirst FOnRequestEvent.IsTerminal
      (USendHttpRequestProxyBase.Lifecycle Class T Self Cbs).1 = true := by
  unfold USendHttpRequestProxyBase.Lifecycle USendHttpRequestProxyBase.SendRequest
  simp only []
  cases hStart : (Self.RequestWrapper.ProcessRequest T).1 with
  | false =>
      simp only [Bool.not_false, if_true, hError]
      rfl
  | true =>
      simp only [Bool.not_true, Bool.false_eq_true, if_false, List.nil_append]
      exact hRun _

/-! ## Claims -/

/-- C1, the code at the failing input: `_OnCompleteInternal` decides on the
connection flag alone and never looks at the status code.  For both subclasses
and every response object exactly one event is broadcast, `OnResponse` when
`bConnectedSuccessfully` is true and `OnError` when it is false, with the status
code passed on as `ResponseCode`; so a completion with
`bConnectedSuccessfully = true` and status 404 broadcasts `OnResponse` with code
404, not `OnError`. -/
theorem C1_complete_ignores_status_code (Self : USendHttpRequestProxyBase)
    (R : UHttpResponse) (bConnectedSuccessfully : Bool) :
    (∃ E, SendResult.Events (USendHttpRequestProxyBase._OnCompleteInternal
          USendHttpRequestProxy.Class Self (some R) bConnectedSuccessfully) = [E] ∧
        E.Delegate = (if bConnectedSuccessfully then .OnResponse else .OnError) ∧
        E.ResponseCode = R.GetResponseCode) ∧
    (∃ E, SendResult.Events (USendHttpRequestProxyBase._OnCompleteInternal
          USendBinaryHttpRequestProxy.Class Self (some R) bConnectedSuccessfully) = [E] ∧
        E.Delegate = (if bConnectedSuccessfully then .OnResponse else .OnError) ∧
        E.ResponseCode = R.GetResponseCode) ∧
    (SendResult.Events (USendHttpRequestProxyBase._OnCompleteInternal USendHttpRequestProxy.Class
        USendHttpRequestProxyBase.New (some (SampleResponse 404)) true)).map
      (fun E => (E.Delegate, E.ResponseCode)) = [(ERequestDelegate.OnResponse, 404)] := by
  cases bConnectedSuccessfully <;>
    exact ⟨⟨_, rfl, rfl, rfl⟩, ⟨_, rfl, rfl, rfl⟩, by decide⟩

/-- C2: in `OnRequestCompleted` with `bConnectedSuccessfully = true`, a response
object and a file system that accepts the write, `OnFileDownloaded` is broadcast
exactly when the response code is below 400 and `OnFileDownloadError` exactly
when it is 400 or more. -/
theorem C2_download_status_boundary (FS : FileSystem) (Self : UHttpDownloadFileProxy)
    (R : UHttpResponse) (hSave : FS (R.GetContent []) Self.SaveLocation = true) :
    (EDownloadDelegate.OnFileDownloaded ∈
        (Self.OnRequestCompleted FS (some R) true).2.map (·.Delegate) ↔
      R.GetResponseCode < 400) ∧
    (EDownloadDelegate.OnFileDownloadError ∈
        (Self.OnRequestCompleted FS (some R) true).2.map (·.Delegate) ↔
      400 ≤ R.GetResponseCode) := by
  unfold UHttpDownloadFileProxy.OnRequestCompleted
  by_cases h : R.GetResponseCode < 400
  · simp [h, hSave]
  · simp [h]
    omega

/-- C2, witness: status 399 with a write that succeeds. -/
theorem C2_download_status_boundary_witness :
    (EDownloadDelegate.OnFileDownloaded ∈
        (SampleDownload.OnRequestCompleted (fun _ _ => true) (some (SampleResponse 399))
          true).2.map (·.Delegate) ↔
      (SampleResponse 399).GetResponseCode < 400) ∧
    (EDownloadDelegate.OnFileDownloadError ∈
        (SampleDownload.OnRequestCompleted (fun _ _ => true) (some (SampleResponse 399))
          true).2.map (·.Delegate) ↔
      400 ≤ (SampleResponse 399).GetResponseCode) :=
  C2_download_status_boundary (fun _ _ => true) SampleDownload (SampleResponse 399) rfl

/-- C3, the code at the failing input: when the transport rejects the request,
`SendHttpRequest` and `SendBinaryHttpRequest` call `OnErrorInternal(nullptr)`,
which reads the response through the null pointer; the call faults and no
`OnError` event is broadcast. -/
theorem C3_rejected_submission_faults (ServerUrl : String) (UrlParameters : TMap String String)
    (Verb : EHttpVerb) (MimeType : EHttpMimeType) (Content : String) (Bytes : List UInt8)
    (Headers : TMap String String) :
    USendHttpRequestProxy.SendHttpRequest (fun _ => false) ServerUrl UrlParameters Verb
        MimeType Content Headers = .error .NullDereference ∧
    USendBinaryHttpRequestProxy.SendBinaryHttpRequest (fun _ => false) ServerUrl UrlParameters
        Verb MimeType Bytes Headers = .error .NullDereference ∧
    SendResult.Events (USendHttpRequestProxy.SendHttpRequest (fun _ => false) ServerUrl
        UrlParameters Verb MimeType Content Headers) = [] := by
  refine ⟨rfl, rfl, rfl⟩

/-- C4: every call of `OnRequestCompleted`, whatever the connection flag, the
response pointer, the status code and the outcome of the write, broadcasts
exactly one event, which is `OnFileDownloaded` or `OnFileDownloadError`;
`OnDownloadProgress` is not broadcast. -/
theorem C4_completion_broadcasts_one_terminal (FS : FileSystem) (Self : UHttpDownloadFileProxy)
    (Response : Option UHttpResponse) (bConnectedSuccessfully : Bool) :
    ((Self.OnRequestCompleted FS Response bConnectedSuccessfully).2.countP
        (fun E => E.Delegate = .OnFileDownloaded) +
      (Self.OnRequestCompleted FS Response bConnectedSuccessfully).2.countP
        (fun E => E.Delegate = .OnFileDownloadError) = 1) ∧
    (Self.OnRequestCompleted FS Response bConnectedSuccessfully).2.countP
        (fun E => E.Delegate = .OnDownloadProgress) = 0 ∧
    (Self.OnRequestCompleted FS Response bConnectedSuccessfully).2.length = 1 := by
  unfold UHttpDownloadFileProxy.OnRequestCompleted
  cases bConnectedSuccessfully
  · simp
  · cases Response with
    | none => simp
    | some R =>
        by_cases h : R.GetResponseCode < 400
        · cases hS : FS (R.GetContent []) Self.SaveLocation <;> simp [h, hS]
        · simp [h]

/-- C5, counterexample: a progress callback that arrives after the completion
callback is dispatched.  The download proxy broadcasts `OnDownloadProgress`
after `OnFileDownloaded`, the send-request proxy `OnTick` after `OnResponse`,
a second completion gives a second terminal event, and so does a completion
callback that follows a rejected submission. -/
theorem C5_counterexample :
    ((SampleDownload.Run (fun _ _ => true)
        [.RequestCompleted (some (SampleResponse 200)) true, .RequestTick 0 10]).2.map
      (·.Delegate) = [.OnFileDownloaded, .OnDownloadProgress]) ∧
    ((USendHttpRequestProxyBase.Run USendHttpRequestProxy.Class USendHttpRequestProxyBase.New
        [.RequestComplete SampleRequest (some (SampleResponse 200)) true,
         .RequestProgress SampleRequest 0 10]).1.map
      (·.Delegate) = [.OnResponse, .OnTick]) ∧
    ((SampleDownload.Run (fun _ _ => true)
        [.RequestCompleted (some (SampleResponse 200)) true,
         .RequestCompleted none false]).2.map
      (·.Delegate) = [.OnFileDownloaded, .OnFileDownloadError]) ∧
    NothingAfterFirst FOnFileDownloadedEvent.IsTerminal
      (SampleDownload.Run (fun _ _ => true)
        [.RequestCompleted (some (SampleResponse 200)) true, .RequestTick 0 10]).2 = false ∧
    ((SampleDownload.Lifecycle (fun _ => false) (fun _ _ => true)
        [.RequestCompleted none false]).2.map
      (·.Delegate) = [.OnFileDownloadError, .OnFileDownloadError]) := by
  decide

/-- C5, amended: the controllers keep no terminal state and dispatch every
callback they receive, also after a terminal event.  No observer event follows
the first terminal event provided the transport is quiet after the end of the
request: it delivers no callback at all after a submission it has rejected and
no callback after the first completion callback otherwise.  This holds for the
download proxy (`Activate`, then the callbacks) and for both send-request
proxies (`SendRequest`, then the callbacks), from every state. -/
theorem C5_no_event_after_terminal_when_transport_quiet (T : Transport) (FS : FileSystem)
    (Download : UHttpDownloadFileProxy) (Send : USendHttpRequestProxyBase)
    (DownloadCbs : List DownloadCallback) (SendCbs : List SendCallback)
    (hDownload : QuietAfterEnd DownloadCallback.IsCompletion
      (T (Download.Activate T).1.Request.Request) DownloadCbs = true)
    (hSend : NothingAfterFirst SendCallback.IsCompletion SendCbs = true) :
    NothingAfterFirst FOnFileDownloadedEvent.IsTerminal
      (Download.Lifecycle T FS DownloadCbs).2 = true ∧
    NothingAfterFirst FOnRequestEvent.IsTerminal
      (USendHttpRequestProxyBase.Lifecycle USendHttpRequestProxy.Class T Send SendCbs).1 = true ∧
    NothingAfterFirst FOnRequestEvent.IsTerminal
      (USendHttpRequestProxyBase.Lifecycle USendBinaryHttpRequestProxy.Class T Send
        SendCbs).1 = true := by
  refine ⟨?_, ?_, ?_⟩
  · unfold UHttpDownloadFileProxy.Lifecycle
    simp only []
    rw [UHttpDownloadFileProxy.Activate_events]
    unfold QuietAfterEnd at hDownload
    cases hT : T (Download.Activate T).1.Request.Request with
    | true =>
        rw [hT] at hDownload
        simp only [if_true, List.nil_append] at hDownload ⊢
        exact UHttpDownloadFileProxy.Run_download_nothing_after_terminal FS DownloadCbs _
          hDownload
    | false =>
        rw [hT] at hDownload
        simp only [Bool.false_eq_true, if_false, List.isEmpty_iff] at hDownload ⊢
        subst hDownload
        rfl
  · exact USendHttpRequestProxyBase.Lifecycle_nothing_after_terminal _ T Send SendCbs
      (fun S => USendHttpRequestProxy.Run_text_nothing_after_terminal SendCbs S hSend)
      (fun _ => rfl)
  · exact USendHttpRequestProxyBase.Lifecycle_nothing_after_terminal _ T Send SendCbs
      (fun S => USendBinaryHttpRequestProxy.Run_binary_nothing_after_terminal SendCbs S hSend)
      (fun _ => rfl)

/-- C5, witness: an accepted submission followed by two ticks and then the
completion, for the download proxy and for the send-request proxies. -/
theorem C5_no_event_after_terminal_when_transport_quiet_witness :
    NothingAfterFirst FOnFileDownloadedEvent.IsTerminal
      (SampleDownload.Lifecycle (fun _ => true) (fun _ _ => true)
        [.RequestTick 0 10, .RequestTick 0 20,
         .RequestCompleted (some (SampleResponse 200)) true]).2 = true ∧
    NothingAfterFirst FOnRequestEvent.IsTerminal
      (USendHttpRequestProxyBase.Lifecycle USendHttpRequestProxy.Class (fun _ => true)
        USendHttpRequestProxyBase.New
        [.RequestProgress SampleRequest 0 10, .RequestProgress SampleRequest 0 20,
         .RequestComplete SampleRequest (some (SampleResponse 200)) true]).1 = true ∧
    NothingAfterFirst FOnRequestEvent.IsTerminal
      (USendHttpRequestProxyBase.Lifecycle USendBinaryHttpRequestProxy.Class (fun _ => true)
        USendHttpRequestProxyBase.New
        [.RequestProgress SampleRequest 0 10, .RequestProgress SampleRequest 0 20,
         .RequestComplete SampleRequest (some (SampleResponse 200)) true]).1 = true :=
  C5_no_event_after_terminal_when_transport_quiet (fun _ => true) (fun _ _ => true)
    SampleDownload USendHttpRequestProxyBase.New
    [.RequestTick 0 10, .RequestTick 0 20, .RequestCompleted (some (SampleResponse 200)) true]
    [.RequestProgress SampleRequest 0 10, .RequestProgress SampleRequest 0 20,
     .RequestComplete SampleRequest (some (SampleResponse 200)) true]
    (by decide) (by decide)

/-- C6: when the transport completes with `bConnectedSuccessfully = true` and a
response code below 400 but the write to `SaveLocation` fails,
`OnRequestCompleted` broadcasts `OnFileDownloadError` (once) and does not
broadcast `OnFileDownloaded`. -/
theorem C6_write_failure_is_error (FS : FileSystem) (Self : UHttpDownloadFileProxy)
    (R : UHttpResponse) (hCode : R.GetResponseCode < 400)
    (hSave : FS (R.GetContent []) Self.SaveLocation = false) :
    (Self.OnRequestCompleted FS (some R) true).2.map (·.Delegate) =
      [EDownloadDelegate.OnFileDownloadError] := by
  unfold UHttpDownloadFileProxy.OnRequestCompleted
  simp [hCode, hSave]

/-- C6, witness: status 200 and a file system that refuses every write. -/
theorem C6_write_failure_is_error_witness :
    (SampleDownload.OnRequestCompleted (fun _ _ => false) (some (SampleResponse 200))
        true).2.map (·.Delegate) = [EDownloadDelegate.OnFileDownloadError] :=
  C6_write_failure_is_error (fun _ _ => false) SampleDownload (SampleResponse 200)
    (by decide) rfl

/-- C7, the code at the failing input: `Key` and `Value` are null when they are
passed to `Split`, so nothing is written to them and no entry is ever added:
`GetAllHeaders` returns the empty map for every response, also for the line
`X-Test: a:b`, although `Split` with two string objects to write to does split
that line into `X-Test` and `a:b`. -/
theorem C7_GetAllHeaders_always_empty (R : UHttpResponse) :
    R.GetAllHeaders = [] ∧
    UHttpResponse.GetAllHeaders
      { RequestDuration := 0,
        Response := some { ResponseCode := 200, AllHeaders := ["X-Test: a:b"],
                           ContentType := "", Content := [], ContentAsString := "",
                           ContentLength := 0, URL := "" } } = [] ∧
    FString.Split "X-Test: a:b" ": " (some "") (some "") = (true, some "X-Test", some "a:b") := by
  refine ⟨UHttpResponse.GetAllHeaders_eq_nil R, by decide, by decide⟩

/-- C8: `AddParametersToUrl` returns the URL unchanged when there is no
parameter; with parameters it returns the URL, then `?`, then the texts
`UrlEncode(key)=UrlEncode(value)` of the pairs in iteration order with `&`
between them and none after the last; `http://x/y` with `a = 1` and `b = 2`
gives `http://x/y?a=1&b=2`. -/
theorem C8_AddParametersToUrl_join (InUrl : String) (P : String × String)
    (Ps : TMap String String) :
    AddParametersToUrl InUrl [] = InUrl ∧
    AddParametersToUrl InUrl (P :: Ps) =
      InUrl ++ "?" ++ "&".intercalate ((P :: Ps).map fun Q =>
        FPlatformHttp.UrlEncode Q.1 ++ "=" ++ FPlatformHttp.UrlEncode Q.2) ∧
    AddParametersToUrl "http://x/y" [("a", "1"), ("b", "2")] = "http://x/y?a=1&b=2" := by
  refine ⟨rfl, ?_, by decide⟩
  have hlen : ¬ (((P :: Ps).length : Int) < 1) := by
    simp only [List.length_cons, Nat.cast_add, Nat.cast_one]
    omega
  unfold AddParametersToUrl
  simp only [hlen, if_false]
  rw [AddParametersToUrl.Loop_eq _ Ps P (InUrl ++ "?") 0 (by simp)]
  rw [intercalate_go_append]
  rfl

/-- C9: `GetPercents` is `Downloaded * 100 / ContentLength` when `ContentLength`
is not 0 and 0 when it is 0, in exact arithmetic (which is also
`Downloaded / ContentLength * 100`); `ContentLength = 1000` and
`Downloaded = 250` give 25. -/
theorem C9_GetPercents_formula (Self : UHttpDownloadFileProxy) :
    Self.GetPercents =
      (if Self.ContentLength = 0 then 0
       else (Self.Downloaded : ℚ) * 100 / (Self.ContentLength : ℚ)) ∧
    Self.GetPercents =
      (if Self.ContentLength = 0 then 0
       else (Self.Downloaded : ℚ) / (Self.ContentLength : ℚ) * 100) ∧
    UHttpDownloadFileProxy.GetPercents
      { Self with ContentLength := 1000, Downloaded := 250 } = 25 := by
  unfold UHttpDownloadFileProxy.GetPercents
  refine ⟨?_, ?_, ?_⟩
  · by_cases h : Self.ContentLength = 0 <;> simp [h]
  · by_cases h : Self.ContentLength = 0
    · simp [h]
    · simp only [ne_eq, h, not_false_eq_true, if_true, if_false]
      ring
  · norm_num

/-- C10: from a proxy just made by `HttpDownloadFile`, for every sequence of
progress callbacks and of header callbacks whose name is not `Content-Length`
(compared without regard to case, as the code does), the events broadcast are
exactly one `OnDownloadProgress` per progress callback, and each of them reports
total size 0 and percent 0, whatever the byte counts are. -/
theorem C10_percent_zero_until_content_length (FS : FileSystem) (FileUrl : String)
    (UrlParameters : TMap String String) (Verb : EHttpVerb) (MimeType : EHttpMimeType)
    (Content : String) (Headers : TMap String String) (SaveFileLocation : String)
    (Cbs : List DownloadCallback)
    (hCbs : ∀ Cb ∈ Cbs, Cb.IsTickOrOtherHeader = true) :
    (∀ E ∈ ((UHttpDownloadFileProxy.HttpDownloadFile FileUrl UrlParameters Verb MimeType
          Content Headers SaveFileLocation).Run FS Cbs).2,
        E.Delegate = .OnDownloadProgress ∧ E.TotalSizeInBytes = 0 ∧ E.PercentDownloaded = 0) ∧
    ((UHttpDownloadFileProxy.HttpDownloadFile FileUrl UrlParameters Verb MimeType
          Content Headers SaveFileLocation).Run FS Cbs).2 =
      Cbs.filterMap DownloadCallback.ProgressWithoutLength := by
  have hRun := UHttpDownloadFileProxy.Run_without_content_length FS Cbs
    (UHttpDownloadFileProxy.HttpDownloadFile FileUrl UrlParameters Verb MimeType
      Content Headers SaveFileLocation) rfl hCbs
  refine ⟨?_, hRun⟩
  intro E hE
  rw [hRun, List.mem_filterMap] at hE
  obtain ⟨Cb, _, hCb⟩ := hE
  cases Cb with
  | RequestCompleted Response b => simp [DownloadCallback.ProgressWithoutLength] at hCb
  | RequestTick BytesSent BytesReceived =>
      simp only [DownloadCallback.ProgressWithoutLength, Option.some.injEq] at hCb
      subst hCb
      exact ⟨rfl, rfl, rfl⟩
  | HeadersReceived HeaderName NewHeaderValue =>
      simp [DownloadCallback.ProgressWithoutLength] at hCb

/-- C10, witness: a tick of 250 bytes, a `Content-Type` header and a tick of 900
bytes give two progress events with total size 0 and percent 0. -/
theorem C10_percent_zero_until_content_length_witness :
    (∀ E ∈ ((UHttpDownloadFileProxy.HttpDownloadFile "http://x/y" [] .GET .txt "" []
          "out.bin").Run (fun _ _ => true)
          [.RequestTick 0 250, .HeadersReceived "Content-Type" "text/html",
           .RequestTick 0 900]).2,
        E.Delegate = .OnDownloadProgress ∧ E.TotalSizeInBytes = 0 ∧ E.PercentDownloaded = 0) ∧
    ((UHttpDownloadFileProxy.HttpDownloadFile "http://x/y" [] .GET .txt "" []
          "out.bin").Run (fun _ _ => true)
          [.RequestTick 0 250, .HeadersReceived "Content-Type" "text/html",
           .RequestTick 0 900]).2 =
      [DownloadCallback.RequestTick 0 250, .HeadersReceived "Content-Type" "text/html",
       .RequestTick 0 900].filterMap DownloadCallback.ProgressWithoutLength :=
  C10_percent_zero_until_content_length (fun _ _ => true) "http://x/y" [] .GET .txt "" []
    "out.bin" [.RequestTick 0 250, .HeadersReceived "Content-Type" "text/html",
      .RequestTick 0 900] (by decide)

/-- C11: when `ProcessRequest` returns false, `Activate` broadcasts exactly one
event, `OnFileDownloadError` with arguments (0, 0, 0), and neither
`OnFileDownloaded` nor `OnDownloadProgress`; when `ProcessRequest` returns true,
`Activate` broadcasts nothing.  The flag is the one the transport returns for
the request that `Activate` submits (the request the proxy holds afterwards). -/
theorem C11_Activate_rejection_event (T : Transport) (Self : UHttpDownloadFileProxy) :
    (Self.Activate T).2 =
      (if T (Self.Activate T).1.Request.Request then []
       else [⟨.OnFileDownloadError, 0, 0, 0⟩]) ∧
    (Self.Activate T).2.countP
        (fun E => E.Delegate = .OnFileDownloaded ∨ E.Delegate = .OnDownloadProgress) = 0 := by
  have hEvents : (Self.Activate T).2 =
      (if T (Self.Activate T).1.Request.Request then []
       else [⟨.OnFileDownloadError, 0, 0, 0⟩]) := ?_
  · refine ⟨hEvents, ?_⟩
    rw [hEvents]
    split <;> decide
  unfold UHttpDownloadFileProxy.Activate
  simp only []
  split
  · rename_i h
    have h2 := h
    rw [UHttpRequest.ProcessRequest_flag] at h2
    simp only [Bool.not_eq_true'] at h2
    simp [h2]
  · rename_i h
    have h2 := h
    rw [UHttpRequest.ProcessRequest_flag] at h2
    simp only [Bool.not_eq_true', Bool.not_eq_false] at h2
    simp [h2]

/-- C13, counterexample: `SetVerb(MAX_COUNT)` hands the string `NONE` to the
transport, which is none of the six verbs; so does every other value of the
type from 6 on, such as 200. -/
theorem C13_counterexample :
    (UHttpRequest.CreateRequest.SetVerb .MAX_COUNT).Request.Verb = "NONE" ∧
    (UHttpRequest.CreateRequest.SetVerb .MAX_COUNT).Request.Verb ∉
      ["GET", "POST", "PUT", "PATCH", "HEAD", "DELETE"] ∧
    (UHttpRequest.CreateRequest.SetVerb ⟨200⟩).Request.Verb = "NONE" := by
  decide

/-- C13, amended: for every `EHttpVerb` value below `MAX_COUNT`, that is for the
six enumerators GET, POST, PUT, PATCH, HEAD and DELETE, the method string that
`SetVerb` hands to the transport is one of the six names; for `MAX_COUNT` and
every greater value of the type the range guard of `ConvertEnumVerbToString`
makes it `NONE`. -/
theorem C13_SetVerb_closed_set_below_MAX_COUNT (Self : UHttpRequest) (InVerb Other : EHttpVerb)
    (hVerb : InVerb.toUInt8 < EHttpVerb.MAX_COUNT.toUInt8)
    (hOther : EHttpVerb.MAX_COUNT.toUInt8 ≤ Other.toUInt8) :
    (Self.SetVerb InVerb).Request.Verb ∈ ["GET", "POST", "PUT", "PATCH", "HEAD", "DELETE"] ∧
    InVerb ∈ [EHttpVerb.GET, EHttpVerb.POST, EHttpVerb.PUT, EHttpVerb.PATCH, EHttpVerb.HEAD,
      EHttpVerb.DELETE] ∧
    (Self.SetVerb Other).Request.Verb = "NONE" :=
  ⟨UHttpRequest.ConvertEnumVerbToString_of_lt InVerb hVerb, EHttpVerb.mem_of_lt InVerb hVerb,
    UHttpRequest.ConvertEnumVerbToString_of_ge Other hOther⟩

/-- C13, witness: the verb PATCH, and the value 200. -/
theorem C13_SetVerb_closed_set_below_MAX_COUNT_witness :
    (UHttpRequest.CreateRequest.SetVerb .PATCH).Request.Verb ∈
      ["GET", "POST", "PUT", "PATCH", "HEAD", "DELETE"] ∧
    EHttpVerb.PATCH ∈ [EHttpVerb.GET, EHttpVerb.POST, EHttpVerb.PUT, EHttpVerb.PATCH,
      EHttpVerb.HEAD, EHttpVerb.DELETE] ∧
    (UHttpRequest.CreateRequest.SetVerb ⟨200⟩).Request.Verb = "NONE" :=
  C13_SetVerb_closed_set_below_MAX_COUNT UHttpRequest.CreateRequest .PATCH ⟨200⟩ (by decide)
    (by decide)

/-- C14: for each of the six verbs, `ConvertEnumVerbToString` gives the upper-case
name of the enumerator and `SetVerb` sets it as the method of the transport
request; whenever the range guard lets a value through, its index is inside the
six-entry table. -/
theorem C14_SetVerb_canonical_strings (Self : UHttpRequest) (InVerb : EHttpVerb) :
    UHttpRequest.ConvertEnumVerbToString .GET = "GET" ∧
    UHttpRequest.ConvertEnumVerbToString .POST = "POST" ∧
    UHttpRequest.ConvertEnumVerbToString .PUT = "PUT" ∧
    UHttpRequest.ConvertEnumVerbToString .PATCH = "PATCH" ∧
    UHttpRequest.ConvertEnumVerbToString .HEAD = "HEAD" ∧
    UHttpRequest.ConvertEnumVerbToString .DELETE = "DELETE" ∧
    (Self.SetVerb InVerb).Request.Verb = UHttpRequest.ConvertEnumVerbToString InVerb ∧
    UHttpRequest.ConvertEnumVerbToString.Converted.length = 6 ∧
    (InVerb.toUInt8 ≥ EHttpVerb.MAX_COUNT.toUInt8 ∨
      InVerb.toUInt8 < UHttpRequest.ConvertEnumVerbToString.Converted.length) := by
  refine ⟨by decide, by decide, by decide, by decide, by decide, by decide, rfl, rfl, ?_⟩
  have hCount : EHttpVerb.MAX_COUNT.toUInt8 = 6 := rfl
  have hLength : UHttpRequest.ConvertEnumVerbToString.Converted.length = 6 := rfl
  rw [hCount, hLength]
  omega

/-- C19: a `UHttpResponse` initialised without a transport response answers
`GetResponseCode` with -1, `GetContentLength` with 0, `GetAllHeaders` with the
empty map, `GetContentType`, `GetContentAsString`, `GetHeader`, `GetURL` and
`GetURLParameter` with the empty string, leaves the output array of
`GetContent` as it is, and `GetElapsedTime` gives the duration passed to
`InitInternal`. -/
theorem C19_getters_without_response (Self : UHttpResponse) (InRequestDuration : ℚ)
    (OutContent : List UInt8) (Key ParameterName : String) :
    (Self.InitInternal none InRequestDuration).GetResponseCode = -1 ∧
    (Self.InitInternal none InRequestDuration).GetContentType = "" ∧
    (Self.InitInternal none InRequestDuration).GetContentLength = 0 ∧
    (Self.InitInternal none InRequestDuration).GetAllHeaders = [] ∧
    (Self.InitInternal none InRequestDuration).GetContentAsString = "" ∧
    (Self.InitInternal none InRequestDuration).GetHeader Key = "" ∧
    (Self.InitInternal none InRequestDuration).GetURL = "" ∧
    (Self.InitInternal none InRequestDuration).GetURLParameter ParameterName = "" ∧
    (Self.InitInternal none InRequestDuration).GetContent OutContent = OutContent ∧
    (Self.InitInternal none InRequestDuration).GetElapsedTime = InRequestDuration :=
  ⟨rfl, rfl, rfl, rfl, rfl, rfl, rfl, rfl, rfl, rfl⟩

/-- C20: `StringToVerb` returns POST, PUT, PATCH, HEAD or DELETE exactly when
the string equals the name of that verb without regard to letter case, and GET
for every other string, among them `GET`, the empty string and `OPTIONS`; it
never returns `MAX_COUNT`. -/
theorem C20_StringToVerb (Verb : String) :
    (StringToVerb Verb = .POST ↔ FString.EqualsIgnoreCase "POST" Verb = true) ∧
    (StringToVerb Verb = .PUT ↔ FString.EqualsIgnoreCase "PUT" Verb = true) ∧
    (StringToVerb Verb = .PATCH ↔ FString.EqualsIgnoreCase "PATCH" Verb = true) ∧
    (StringToVerb Verb = .HEAD ↔ FString.EqualsIgnoreCase "HEAD" Verb = true) ∧
    (StringToVerb Verb = .DELETE ↔ FString.EqualsIgnoreCase "DELETE" Verb = true) ∧
    (StringToVerb Verb = .GET ↔
      FString.EqualsIgnoreCase "POST" Verb = false ∧ FString.EqualsIgnoreCase "PUT" Verb = false ∧
      FString.EqualsIgnoreCase "PATCH" Verb = false ∧
      FString.EqualsIgnoreCase "HEAD" Verb = false ∧
      FString.EqualsIgnoreCase "DELETE" Verb = false) ∧
    StringToVerb Verb ≠ .MAX_COUNT ∧
    StringToVerb "GET" = .GET ∧ StringToVerb "" = .GET ∧ StringToVerb "OPTIONS" = .GET ∧
    StringToVerb "post" = .POST ∧ StringToVerb "Delete" = .DELETE := by
  have hLower : ∀ Name : String, FString.EqualsIgnoreCase Name Verb = true →
      Verb.toList.map Char.toLower = Name.toList.map Char.toLower := by
    intro Name h
    exact (eq_of_beq h).symm
  refine ⟨?_, ?_, ?_, ?_, ?_, ?_, ?_, by decide, by decide, by decide, by decide, by decide⟩ <;>
  · by_cases h1 : FString.EqualsIgnoreCase "POST" Verb = true
    · have hL := hLower _ h1
      simp only [StringToVerb, FString.EqualsIgnoreCase, hL]
      decide
    by_cases h2 : FString.EqualsIgnoreCase "PUT" Verb = true
    · have hL := hLower _ h2
      simp only [StringToVerb, FString.EqualsIgnoreCase, hL]
      decide
    by_cases h3 : FString.EqualsIgnoreCase "PATCH" Verb = true
    · have hL := hLower _ h3
      simp only [StringToVerb, FString.EqualsIgnoreCase, hL]
      decide
    by_cases h4 : FString.EqualsIgnoreCase "HEAD" Verb = true
    · have hL := hLower _ h4
      simp only [StringToVerb, FString.EqualsIgnoreCase, hL]
      decide
    by_cases h5 : FString.EqualsIgnoreCase "DELETE" Verb = true
    · have hL := hLower _ h5
      simp only [StringToVerb, FString.EqualsIgnoreCase, hL]
      decide
    rw [Bool.not_eq_true] at h1 h2 h3 h4 h5
    simp only [StringToVerb, h1, h2, h3, h4, h5, Bool.false_eq_true, if_false]
    decide

/-- C16: `ProcessRequest` sets the `Content-Type` header to `text/plain` when the
content type of the request is empty, and leaves the request (its headers
included) as it is otherwise; the transport is started with the request after
this step. -/
theorem C16_ProcessRequest_default_content_type (T : Transport) (Self : UHttpRequest) :
    (Self.ProcessRequest T).2.Request.GetContentType =
      (if Self.Request.GetContentType = "" then "text/plain"
       else Self.Request.GetContentType) ∧
    (Self.ProcessRequest T).2 =
      (if Self.Request.GetContentType = "" then Self.SetHeader "Content-Type" "text/plain"
       else Self) ∧
    (Self.ProcessRequest T).1 = T (Self.ProcessRequest T).2.Request := by
  have hTxt : CreateMimeType .txt = "text/plain" := by decide
  refine ⟨UHttpRequest.ProcessRequest_content_type_after Self T, ?_, rfl⟩
  · by_cases h : Self.Request.GetContentType = ""
    · simp only [UHttpRequest.ProcessRequest, h, beq_self_eq_true, if_true]
      rw [UHttpRequest.SetMimeType_of_empty Self .txt h, hTxt]
    · simp [UHttpRequest.ProcessRequest, h]

/-- C17, the code at the failing input: `SetMimeType` calls `AppendToHeader`, so
the content type becomes `CreateMimeType(t)` only when none was present; a
value that is already there is kept and the new type is appended after a comma.
`SetMimeType(html)` followed by `SetMimeType(json)` gives
`text/html, application/json`, and `SetHeader("Content-Type", "a/b")` followed
by `SetMimeType(json)` gives `a/b, application/json`. -/
theorem C17_SetMimeType_appends (Self : UHttpRequest) (MimeType : EHttpMimeType) :
    (Self.SetMimeType MimeType).Request.GetContentType =
      (if Self.Request.GetContentType.isEmpty then CreateMimeType MimeType
       else Self.Request.GetContentType ++ ", " ++ CreateMimeType MimeType) ∧
    ((UHttpRequest.CreateRequest.SetMimeType .html).SetMimeType .json).Request.GetContentType =
      "text/html, application/json" ∧
    ((UHttpRequest.CreateRequest.SetHeader "Content-Type" "a/b").SetMimeType
      .json).Request.GetContentType = "a/b, application/json" ∧
    CreateMimeType .json = "application/json" := by
  refine ⟨?_, by decide, by decide, by decide⟩
  exact IHttpRequest.GetContentType_AppendToHeader _ _ (CreateMimeType_not_empty MimeType)

/-- C18: a `Content-Type` header set after the MIME type overrides it.  After
`SetMimeType(t)`, `SetHeader("Content-Type", v)` makes the content type exactly
`v`; and `CreateInitializedRequest` and `CreateInitializedBinaryRequest`, called
with a map of headers (keys pairwise different) that holds `v` under the key
`Content-Type`, return a request whose content type is `v`. -/
theorem C18_explicit_content_type_overrides (Self : UHttpRequest) (T : EHttpMimeType)
    (Url : String) (UrlParameters : TMap String String) (Verb : EHttpVerb)
    (MimeType : EHttpMimeType) (Content : String) (Bytes : List UInt8)
    (Headers : TMap String String) (Key V : String)
    (hDistinct : TMap.KeysDistinct Headers = true) (hMem : (Key, V) ∈ Headers)
    (hKey : FString.EqualsIgnoreCase Key "Content-Type" = true) :
    ((Self.SetMimeType T).SetHeader "Content-Type" V).Request.GetContentType = V ∧
    (CreateInitializedRequest Url UrlParameters Verb MimeType Content
      Headers).Request.GetContentType = V ∧
    (CreateInitializedBinaryRequest Url UrlParameters Verb MimeType Bytes
      Headers).Request.GetContentType = V := by
  refine ⟨?_, ?_, ?_⟩
  · exact IHttpRequest.GetHeader_SetHeader_of_equal _ _ _ _ (by decide)
  · exact UHttpRequest.SetHeader_fold_of_member _ _ _ _ _ hDistinct hMem hKey
  · exact UHttpRequest.SetHeader_fold_of_member _ _ _ _ _ hDistinct hMem hKey

/-- C18, witness: MIME type `json` and the headers `Accept` and `content-type`,
the latter with the value `application/x-custom`. -/
theorem C18_explicit_content_type_overrides_witness :
    ((UHttpRequest.CreateRequest.SetMimeType .json).SetHeader "Content-Type"
      "application/x-custom").Request.GetContentType = "application/x-custom" ∧
    (CreateInitializedRequest "http://x/y" [] .POST .json "body"
      [("Accept", "*/*"), ("content-type", "application/x-custom")]).Request.GetContentType =
        "application/x-custom" ∧
    (CreateInitializedBinaryRequest "http://x/y" [] .POST .json [1, 2]
      [("Accept", "*/*"), ("content-type", "application/x-custom")]).Request.GetContentType =
        "application/x-custom" :=
  C18_explicit_content_type_overrides UHttpRequest.CreateRequest .json "http://x/y" [] .POST
    .json "body" [1, 2] [("Accept", "*/*"), ("content-type", "application/x-custom")]
    "content-type" "application/x-custom" (by decide) (by decide) (by decide)

/-- C12, the code at the failing input: `InlineProcessRequest` only stores the
request in the new proxy and `Activate` does nothing.  The request is not
submitted (it is stored unchanged, whereas `ProcessRequest` would have given a
new request its default content type) and no handler of the proxy is bound to
its delegates, so whatever the transport later reports for the request, the
proxy broadcasts neither `OnResponse` nor `OnError`. -/
theorem C12_InlineProcessRequest_only_stores (Request : UHttpRequest)
    (AtCall AtCallback : IHttpRequest) (Cb : RawCallback) :
    UProcessHttpRequestProxy.InlineProcessRequest (some Request) =
      { RequestWrapper := some Request, BytesSent := 0, BytesReceived := 0,
        bReadyToDestroy := false } ∧
    (UProcessHttpRequestProxy.InlineProcessRequest (some Request)).Activate =
      (UProcessHttpRequestProxy.InlineProcessRequest (some Request), []) ∧
    (∀ T : Transport,
      (UHttpRequest.CreateRequest.ProcessRequest T).2 ≠ UHttpRequest.CreateRequest) ∧
    ((UProcessHttpRequestProxy.InlineProcessRequest
        (some { Request := AtCall })).Activate.1.Receive { Request := AtCallback } Cb =
      .ok (UProcessHttpRequestProxy.InlineProcessRequest (some { Request := AtCall }), [])) ∧
    ((UProcessHttpRequestProxy.InlineProcessRequest
        (some (CreateInitializedRequest "http://x/y" [] .GET .txt "" []))).Activate.1.Receive
        (CreateInitializedRequest "http://x/y" [] .GET .txt "" [])
        (.ProcessRequestComplete (SampleResponse 200).Response true) =
      .ok (UProcessHttpRequestProxy.InlineProcessRequest
        (some (CreateInitializedRequest "http://x/y" [] .GET .txt "" [])), [])) := by
  refine ⟨rfl, rfl, ?_, ?_, rfl⟩
  · intro T h
    have hHeaders := congrArg (fun R => R.Request.Headers.length) h
    have hClosed :
        (if UHttpRequest.CreateRequest.Request.GetContentType == "" then
            UHttpRequest.CreateRequest.SetMimeType .txt
          else UHttpRequest.CreateRequest).Request.Headers.length ≠
          UHttpRequest.CreateRequest.Request.Headers.length := by
      decide
    exact hClosed hHeaders
  · cases Cb <;> rfl

/-- C15, counterexample: a request made by `CreateInitializedRequest` (GET,
`http://x/y`) is accepted by the transport; when the transport reports that it
has succeeded, `SetURL`, `SetVerb`, `SetHeader` and `SetContent` still change
its URL, method, headers and body. -/
theorem C15_counterexample :
    ((CreateInitializedRequest "http://x/y" [] .GET .txt "" []).ProcessRequest
      (fun _ => true)).1 = true ∧
    ((CreateInitializedRequest "http://x/y" [] .GET .txt "" []).ProcessRequest
      (fun _ => true)).2.Request.URL = "http://x/y" ∧
    (((((CreateInitializedRequest "http://x/y" [] .GET .txt "" []).ProcessRequest
      (fun _ => true)).2.WithStatus .Succeeded).SetURL "http://z/w").Request.URL =
        "http://z/w") ∧
    (((((CreateInitializedRequest "http://x/y" [] .GET .txt "" []).ProcessRequest
      (fun _ => true)).2.WithStatus .Succeeded).SetVerb .POST).Request.Verb = "POST") ∧
    (((((CreateInitializedRequest "http://x/y" [] .GET .txt "" []).ProcessRequest
      (fun _ => true)).2.WithStatus .Succeeded).SetHeader "Accept" "a/b").Request.Headers =
        [("Content-Type", "text/plain"), ("Accept", "a/b")]) ∧
    (((((CreateInitializedRequest "http://x/y" [] .GET .txt "" []).ProcessRequest
      (fun _ => true)).2.WithStatus .Succeeded).SetContent [1, 2]).Request.Content = [1, 2]) := by
  decide

/-- C15, amended: submission does not freeze the configuration for good.  Once
`ProcessRequest` has returned true and the transport reports the request as
finished (`Succeeded`, `Failed` or `Failed_ConnectionError`), the request can be
configured again: `SetVerb`, `SetURL`, `SetContent`, `SetContentAsString`,
`SetHeader`, `SetHeaders` and `AppendToHeader` change the method, URL, body and
headers (header name and value not empty).  Nothing is said of a request that
is still being processed. -/
theorem C15_setters_change_finished_request (T : Transport) (Self : UHttpRequest)
    (Status : EBlueprintHttpRequestStatus) (InVerb : EHttpVerb) (Url Text Key Value : String)
    (Bytes : List UInt8)
    (hStarted : (Self.ProcessRequest T).1 = true)
    (hFinished : Status = .Succeeded ∨ Status = .Failed ∨ Status = .Failed_ConnectionError)
    (hKey : Key.isEmpty = false) (hValue : Value.isEmpty = false) :
    ((((Self.ProcessRequest T).2.WithStatus Status).SetVerb InVerb).Request.Verb =
      UHttpRequest.ConvertEnumVerbToString InVerb) ∧
    ((((Self.ProcessRequest T).2.WithStatus Status).SetURL Url).Request.URL = Url) ∧
    ((((Self.ProcessRequest T).2.WithStatus Status).SetContent Bytes).Request.Content = Bytes) ∧
    ((((Self.ProcessRequest T).2.WithStatus Status).SetContentAsString Text).Request.Content =
      Text.toList.flatMap String.utf8EncodeChar) ∧
    ((((Self.ProcessRequest T).2.WithStatus Status).SetHeader Key Value).Request.GetHeader Key =
      Value) ∧
    ((((Self.ProcessRequest T).2.WithStatus Status).SetHeaders
      [(Key, Value)]).Request.GetHeader Key = Value) ∧
    ((((Self.ProcessRequest T).2.WithStatus Status).AppendToHeader Key Value).Request.GetHeader
        Key =
      (if (((Self.ProcessRequest T).2.WithStatus Status).Request.GetHeader Key).isEmpty
       then Value
       else ((Self.ProcessRequest T).2.WithStatus Status).Request.GetHeader Key ++ ", " ++
         Value)) := by
  have hRefl : FString.EqualsIgnoreCase Key Key = true :=
    (FString.EqualsIgnoreCase_iff Key Key).mpr rfl
  have _hAccepted : T (Self.ProcessRequest T).2.Request = true := hStarted
  rcases hFinished with rfl | rfl | rfl <;>
    exact ⟨rfl, rfl, rfl, rfl,
      IHttpRequest.GetHeader_SetHeader_of_equal _ _ _ _ hRefl,
      IHttpRequest.GetHeader_SetHeader_of_equal _ _ _ _ hRefl,
      IHttpRequest.GetHeader_AppendToHeader _ _ _ hKey hValue⟩

/-- C15, witness: a request that the transport has accepted and reports as
succeeded. -/
theorem C15_setters_change_finished_request_witness :
    ((((SampleRequest.ProcessRequest (fun _ => true)).2.WithStatus .Succeeded).SetVerb
      .POST).Request.Verb = UHttpRequest.ConvertEnumVerbToString .POST) ∧
    ((((SampleRequest.ProcessRequest (fun _ => true)).2.WithStatus .Succeeded).SetURL
      "http://z/w").Request.URL = "http://z/w") ∧
    ((((SampleRequest.ProcessRequest (fun _ => true)).2.WithStatus .Succeeded).SetContent
      [1, 2]).Request.Content = [1, 2]) ∧
    ((((SampleRequest.ProcessRequest (fun _ => true)).2.WithStatus .Succeeded).SetContentAsString
      "body").Request.Content = "body".toList.flatMap String.utf8EncodeChar) ∧
    ((((SampleRequest.ProcessRequest (fun _ => true)).2.WithStatus .Succeeded).SetHeader
      "Accept" "a/b").Request.GetHeader "Accept" = "a/b") ∧
    ((((SampleRequest.ProcessRequest (fun _ => true)).2.WithStatus .Succeeded).SetHeaders
      [("Accept", "a/b")]).Request.GetHeader "Accept" = "a/b") ∧
    ((((SampleRequest.ProcessRequest (fun _ => true)).2.WithStatus .Succeeded).AppendToHeader
        "Accept" "a/b").Request.GetHeader "Accept" =
      (if (((SampleRequest.ProcessRequest (fun _ => true)).2.WithStatus
          .Succeeded).Request.GetHeader "Accept").isEmpty
       then "a/b"
       else ((SampleRequest.ProcessRequest (fun _ => true)).2.WithStatus
          .Succeeded).Request.GetHeader "Accept" ++ ", " ++ "a/b")) :=
  C15_setters_change_finished_request (fun _ => true) SampleRequest .Succeeded .POST
    "http://z/w" "body" "Accept" "a/b" [1, 2] rfl (Or.inl rfl) (by decide) (by decide)

/-- C21: `HttpResponseCodeToEnum` returns the enumerator `C<code>` for each of the
63 official codes declared in `EHttpResponseCode` and `CUknown` for every other
integer, negative ones such as -1 included; it never returns a section marker
or the enumerator of another code. -/
theorem C21_HttpResponseCodeToEnum (ResponseCode : Int) (E : EHttpResponseCode) :
    (match E.Code with
     | some C => HttpResponseCodeToEnum C = E ∧ E.Name = "C" ++ toString C
     | none => True) ∧
    (HttpResponseCodeToEnum ResponseCode = .CUknown ↔
      ResponseCode ∉ EHttpResponseCode.OfficialCodes) ∧
    ((HttpResponseCodeToEnum ResponseCode).Code = some ResponseCode ∨
      HttpResponseCodeToEnum ResponseCode = .CUknown) ∧
    EHttpResponseCode.OfficialCodes =
      [100, 101, 102, 103, 200, 201, 202, 203, 204, 205, 206, 207, 208, 226, 300, 301, 302, 303,
       304, 305, 306, 307, 308, 400, 401, 402, 403, 404, 405, 406, 407, 408, 409, 410, 411, 412,
       413, 414, 415, 416, 417, 418, 421, 422, 423, 424, 425, 426, 428, 429, 431, 451, 500, 501,
       502, 503, 504, 505, 506, 507, 508, 510, 511] ∧
    EHttpResponseCode.OfficialCodes.length = 63 ∧
    HttpResponseCodeToEnum (-1) = .CUknown ∧ HttpResponseCodeToEnum 0 = .CUknown ∧
    HttpResponseCodeToEnum 419 = .CUknown ∧ HttpResponseCodeToEnum 404 = .C404 := by
  refine ⟨?_, HttpResponseCodeToEnum_eq_CUknown_iff ResponseCode, ?_, by decide, by decide,
    by decide, by decide, by decide, by decide⟩
  · cases E <;> first | exact True.intro | exact ⟨by decide, by decide⟩
  · unfold HttpResponseCodeToEnum
    cases hL : HttpResponseCodeToEnum.Cases.lookup ResponseCode with
    | none => exact Or.inr rfl
    | some Code =>
        left
        have := List.lookup_eq_some_iff.mp hL
        obtain ⟨L1, L2, hEq, _⟩ := this
        exact (HttpResponseCodeToEnum.Cases_sound (ResponseCode, Code)
          (by rw [hEq]; simp)).1

/-- C22: with the lookup data available, `HttpResponseCodeToString` returns for
every official code the display name declared for the enumerator of that code,
and this name begins with the decimal code and a blank (404 gives
`404 Not Found`, 200 gives `200 OK`); for every other integer it returns the
decimal code followed by ` Unofficial Response Code`. -/
theorem C22_HttpResponseCodeToString (ResponseCode : Int) (E : EHttpResponseCode) :
    (match E.Code with
     | some C =>
         E.DisplayName = some (HttpResponseCodeToString (some EHttpResponseCode.StaticEnum) C) ∧
         (toString C ++ " ").toList.isPrefixOf
           (HttpResponseCodeToString (some EHttpResponseCode.StaticEnum) C).toList = true
     | none => True) ∧
    (ResponseCode ∈ EHttpResponseCode.OfficialCodes ∨
      HttpResponseCodeToString (some EHttpResponseCode.StaticEnum) ResponseCode =
        toString ResponseCode ++ " Unofficial Response Code") ∧
    HttpResponseCodeToString (some EHttpResponseCode.StaticEnum) 404 = "404 Not Found" ∧
    HttpResponseCodeToString (some EHttpResponseCode.StaticEnum) 200 = "200 OK" ∧
    HttpResponseCodeToString (some EHttpResponseCode.StaticEnum) (-1) =
      "-1 Unofficial Response Code" ∧
    HttpResponseCodeToString (some EHttpResponseCode.StaticEnum) 299 =
      "299 Unofficial Response Code" := by
  refine ⟨?_, ?_, by decide, by decide, by decide, by decide⟩
  · cases E <;> first | exact True.intro | exact ⟨by decide, by decide⟩
  · by_cases h : ResponseCode ∈ EHttpResponseCode.OfficialCodes
    · exact Or.inl h
    · right
      have hU := (HttpResponseCodeToEnum_eq_CUknown_iff ResponseCode).mpr h
      simp [HttpResponseCodeToString, hU]

/-- C23: for each of the 27 `EHttpMimeType` values `CreateMimeType` returns the
string declared as the `DisplayName` of the enumerator, never
`INVALID_MIME_TYPE`; `txt` gives `text/plain`, `json` gives `application/json`
and `_7z` gives `application/x-7z-compressed`. -/
theorem C23_CreateMimeType_is_DisplayName (MimeType : EHttpMimeType) :
    CreateMimeType MimeType = MimeType.DisplayName ∧
    CreateMimeType MimeType ≠ "INVALID_MIME_TYPE" ∧
    CreateMimeType.Enum.length = 27 ∧
    CreateMimeType .txt = "text/plain" ∧ CreateMimeType .json = "application/json" ∧
    CreateMimeType ._7z = "application/x-7z-compressed" := by
  refine ⟨?_, ?_, by decide, by decide, by decide, by decide⟩
  · cases MimeType <;> decide
  · cases MimeType <;> decide

/-- C24, the code at the failing input: `Key` and `Value` are null when they are
passed to `Split`, and after a successful split the code reads `*Key` and
`*Value`.  So for every list of header lines `GetAllHeaders` faults as soon as
one line contains the separator, and returns the empty map otherwise; a request
with the single header `X-Test` = `a:b` faults. -/
theorem C24_GetAllHeaders_null_dereference (Lines : List String) :
    UHttpRequest.GetAllHeaders.Loop none none [] Lines =
      (if Lines.any (fun L => (FString.Find L.toList ": ".toList).isSome) then
        .error .NullDereference
       else .ok []) ∧
    (UHttpRequest.CreateRequest.SetHeader "X-Test" "a:b").Request.GetAllHeaders =
      ["X-Test: a:b"] ∧
    (UHttpRequest.CreateRequest.SetHeader "X-Test" "a:b").GetAllHeaders =
      .error .NullDereference ∧
    UHttpRequest.CreateRequest.GetAllHeaders = .ok [] :=
  ⟨UHttpRequest.GetAllHeaders_Loop_null Lines [], by decide, rfl, rfl⟩

/-- C25: `OnHeadersReceived` sets `ContentLength` to the integer parsed from the
header value when the header name equals `Content-Length` without regard to
letter case, leaves it unchanged for every other name, never changes
`Downloaded` and broadcasts nothing; so after a `Content-Length` header with
value `1000`, a progress callback with 250 bytes received broadcasts
`OnDownloadProgress(1000, 250, 25)`. -/
theorem C25_OnHeadersReceived_content_length (FS : FileSystem) (Self : UHttpDownloadFileProxy)
    (HeaderName NewHeaderValue : String) :
    (Self.OnHeadersReceived HeaderName NewHeaderValue).1 =
      { Self with ContentLength :=
          if FString.EqualsIgnoreCase HeaderName "Content-Length" then
            FCString.Atoi NewHeaderValue
          else Self.ContentLength } ∧
    (Self.OnHeadersReceived HeaderName NewHeaderValue).1.Downloaded = Self.Downloaded ∧
    (Self.OnHeadersReceived HeaderName NewHeaderValue).2 = [] ∧
    FCString.Atoi "1000" = 1000 ∧
    (Self.Run FS [.HeadersReceived "Content-Length" "1000", .RequestTick 0 250]).2 =
      [⟨.OnDownloadProgress, 1000, 250, 25⟩] ∧
    (Self.Run FS [.HeadersReceived "content-length" "1000", .RequestTick 0 250]).2 =
      [⟨.OnDownloadProgress, 1000, 250, 25⟩] := by
  have hAtoi : FCString.Atoi "1000" = 1000 := by decide
  have hName : FString.EqualsIgnoreCase "Content-Length" "Content-Length" = true := by decide
  have hLower : FString.EqualsIgnoreCase "content-length" "Content-Length" = true := by decide
  refine ⟨?_, ?_, ?_, hAtoi, ?_, ?_⟩
  · unfold UHttpDownloadFileProxy.OnHeadersReceived
    split <;> rfl
  · unfold UHttpDownloadFileProxy.OnHeadersReceived
    split <;> rfl
  · unfold UHttpDownloadFileProxy.OnHeadersReceived
    split <;> rfl
  · simp only [UHttpDownloadFileProxy.Run, UHttpDownloadFileProxy.Dispatch,
      UHttpDownloadFileProxy.OnHeadersReceived, UHttpDownloadFileProxy.OnRequestTick,
      UHttpDownloadFileProxy.GetPercents, hName, hAtoi, if_true, List.nil_append,
      List.append_nil]
    norm_num
  · simp only [UHttpDownloadFileProxy.Run, UHttpDownloadFileProxy.Dispatch,
      UHttpDownloadFileProxy.OnHeadersReceived, UHttpDownloadFileProxy.OnRequestTick,
      UHttpDownloadFileProxy.GetPercents, hLower, hAtoi, if_true, List.nil_append,
      List.append_nil]
    norm_num

/-- C26: `StringToVerb` is a left inverse of the table of verb names: for each of
the six verbs, `StringToVerb(ConvertEnumVerbToString(v)) = v`; and for every
string `s`, `ConvertEnumVerbToString(StringToVerb(s))` is one of the six names
and not `NONE`. -/
theorem C26_StringToVerb_left_inverse (S : String) :
    StringToVerb (UHttpRequest.ConvertEnumVerbToString .GET) = .GET ∧
    StringToVerb (UHttpRequest.ConvertEnumVerbToString .POST) = .POST ∧
    StringToVerb (UHttpRequest.ConvertEnumVerbToString .PUT) = .PUT ∧
    StringToVerb (UHttpRequest.ConvertEnumVerbToString .PATCH) = .PATCH ∧
    StringToVerb (UHttpRequest.ConvertEnumVerbToString .HEAD) = .HEAD ∧
    StringToVerb (UHttpRequest.ConvertEnumVerbToString .DELETE) = .DELETE ∧
    UHttpRequest.ConvertEnumVerbToString (StringToVerb S) ∈
      ["GET", "POST", "PUT", "PATCH", "HEAD", "DELETE"] ∧
    UHttpRequest.ConvertEnumVerbToString (StringToVerb S) ≠ "NONE" := by
  refine ⟨by decide, by decide, by decide, by decide, by decide, by decide, ?_, ?_⟩
  · have h := StringToVerb_mem S
    generalize StringToVerb S = V at h
    simp only [List.mem_cons, List.mem_singleton, List.not_mem_nil, or_false] at h
    rcases h with rfl | rfl | rfl | rfl | rfl | rfl <;> decide
  · have h := StringToVerb_mem S
    generalize StringToVerb S = V at h
    simp only [List.mem_cons, List.mem_singleton, List.not_mem_nil, or_false] at h
    rcases h with rfl | rfl | rfl | rfl | rfl | rfl <;> decide

/-- C27: `HttpDownloadFile` applies the headers of the caller before the MIME
type.  With a map of headers (keys pairwise different) that holds a non-empty
value `v` under the key `Content-Type`, the content type of its request is `v`,
a comma, a blank and `CreateMimeType(MimeType)`, whereas
`CreateInitializedRequest` and `SendHttpRequest`, which apply the headers last,
give the content type `v` for the same inputs. -/
theorem C27_HttpDownloadFile_appends_mime_type (FileUrl : String)
    (UrlParameters : TMap String String) (Verb : EHttpVerb) (MimeType : EHttpMimeType)
    (Content : String) (Headers : TMap String String) (SaveFileLocation : String)
    (Key V : String)
    (hDistinct : TMap.KeysDistinct Headers = true) (hMem : (Key, V) ∈ Headers)
    (hKey : FString.EqualsIgnoreCase Key "Content-Type" = true) (hV : V.isEmpty = false) :
    (UHttpDownloadFileProxy.HttpDownloadFile FileUrl UrlParameters Verb MimeType Content
      Headers SaveFileLocation).Request.Request.GetContentType =
        V ++ ", " ++ CreateMimeType MimeType ∧
    (CreateInitializedRequest FileUrl UrlParameters Verb MimeType Content
      Headers).Request.GetContentType = V ∧
    (∃ Proxy, USendHttpRequestProxy.SendHttpRequest (fun _ => true) FileUrl UrlParameters Verb
        MimeType Content Headers = .ok (Proxy, []) ∧
      Proxy.RequestWrapper.Request.GetContentType = V) := by
  have hNe : V ≠ "" := by
    intro h
    rw [h] at hV
    exact absurd hV (by decide)
  refine ⟨?_, ?_, ?_⟩
  · have hPrev : (((UHttpRequest.CreateRequest.SetVerb Verb).SetHeaders Headers).SetURL
        (AddParametersToUrl FileUrl UrlParameters)).Request.GetContentType = V :=
      UHttpRequest.SetHeader_fold_of_member "Content-Type" Key V Headers _ hDistinct hMem hKey
    have hAppend := IHttpRequest.GetContentType_AppendToHeader
      (((UHttpRequest.CreateRequest.SetVerb Verb).SetHeaders Headers).SetURL
        (AddParametersToUrl FileUrl UrlParameters)).Request (CreateMimeType MimeType)
      (CreateMimeType_not_empty MimeType)
    rw [hPrev, hV] at hAppend
    simpa using hAppend
  · exact UHttpRequest.SetHeader_fold_of_member _ _ _ _ _ hDistinct hMem hKey
  · refine ⟨_, rfl, ?_⟩
    have hType : ((((((USendHttpRequestProxyBase.New.RequestWrapper.SetURL
        (AddParametersToUrl FileUrl UrlParameters)).SetMimeType MimeType).SetVerb
        Verb).SetContentAsString Content).SetHeaders Headers)).Request.GetContentType = V :=
      UHttpRequest.SetHeader_fold_of_member "Content-Type" Key V Headers _ hDistinct hMem hKey
    have hAfter := UHttpRequest.ProcessRequest_content_type_after
      (((((USendHttpRequestProxyBase.New.RequestWrapper.SetURL
        (AddParametersToUrl FileUrl UrlParameters)).SetMimeType MimeType).SetVerb
        Verb).SetContentAsString Content).SetHeaders Headers) (fun _ => true)
    rw [hType] at hAfter
    simp only [hNe, if_false] at hAfter
    exact hAfter

/-- C27, witness: the headers `Accept` and `Content-Type` = `a/b` with the MIME
type `json`. -/
theorem C27_HttpDownloadFile_appends_mime_type_witness :
    (UHttpDownloadFileProxy.HttpDownloadFile "http://x/y" [] .GET .json ""
      [("Accept", "*/*"), ("Content-Type", "a/b")] "out.bin").Request.Request.GetContentType =
        "a/b" ++ ", " ++ CreateMimeType .json ∧
    (CreateInitializedRequest "http://x/y" [] .GET .json ""
      [("Accept", "*/*"), ("Content-Type", "a/b")]).Request.GetContentType = "a/b" ∧
    (∃ Proxy, USendHttpRequestProxy.SendHttpRequest (fun _ => true) "http://x/y" [] .GET
        .json "" [("Accept", "*/*"), ("Content-Type", "a/b")] = .ok (Proxy, []) ∧
      Proxy.RequestWrapper.Request.GetContentType = "a/b") :=
  C27_HttpDownloadFile_appends_mime_type "http://x/y" [] .GET .json ""
    [("Accept", "*/*"), ("Content-Type", "a/b")] "out.bin" "Content-Type" "a/b"
    (by decide) (by decide) (by decide) (by decide)

set_option maxRecDepth 20000 in
/-- C28: the enumerators of `EHttpResponseCode` are numbered consecutively from 0
without gaps, the hidden section markers included, so the index of an
enumerator in the reflection data is its value.  Hence for every official code
`HttpResponseCodeToDescriptionString` (editor build) returns the tooltip
declared for the enumerator of that code, the same enumerator whose display
name `HttpResponseCodeToString` returns. -/
theorem C28_description_is_tooltip_of_same_enumerator (E : EHttpResponseCode) :
    (match E.Code with
     | some C =>
         HttpResponseCodeToEnum C = E ∧
         E.ToolTip = some (HttpResponseCodeToDescriptionString true
           (some EHttpResponseCode.StaticEnum) C) ∧
         E.DisplayName = some (HttpResponseCodeToString (some EHttpResponseCode.StaticEnum) C)
     | none => True) ∧
    EHttpResponseCode.Values.map Prod.snd = List.range 69 ∧
    EHttpResponseCode.Values.map Prod.fst = EHttpResponseCode.Declaration.map Prod.fst ∧
    EHttpResponseCode.StaticEnum.GetIndexByValue E.toUInt8 = some E.toUInt8 ∧
    (EHttpResponseCode.StaticEnum.get? E.toUInt8).map (·.Name) = some E.Name ∧
    HttpResponseCodeToDescriptionString true (some EHttpResponseCode.StaticEnum) 200 =
      "The request has succeeded." := by
  refine ⟨?_, by decide, by decide, ?_, ?_, by decide⟩
  · cases E <;> first | exact True.intro | exact ⟨by decide, by decide, by decide⟩
  · cases E <;> decide
  · cases E <;> decide

end BlueprintHttp
